import Mathlib

/-!
# WhateverRed: policy resolution and the framebuffer-init wrapper

A shallow embedding of `WhateverRed/kern_wred.cpp` and `kern_wred.hpp`.

* C strings are lists of `Char`: the characters the pointer designates up to,
  and not including, the terminating NUL.
* The members of `class WRed` that the modelled functions read or write are the
  fields of the structure `WRed`; every member function takes the instance and
  returns the updated instance.
* What the code obtains from Lilu, IOKit and the kernel (boot arguments, the
  device tree, symbol lookups, the allocator, the hooked original routine, the
  framebuffer object and memory) is passed in as explicit parameters.
* `unsigned int` arithmetic that can wrap carries an explicit `% 2 ^ 32`.
-/

namespace WhateverRed

/-! ## libc string functions used by the source -/

/-- The C library `strstr(haystack, needle)`: the offset of the first occurrence
of `needle` in `haystack`, `none` standing for the null pointer. -/
def strstr : List Char → List Char → Option Nat
  | [], needle => if needle.isEmpty then some 0 else none
  | c :: rest, needle =>
    if needle.isPrefixOf (c :: rest) then some 0
    else (strstr rest needle).map (· + 1)

/-- The C library `strcmp(a, b)`: zero when the strings are equal, otherwise the
difference of the first pair of characters that differ (the terminator counts
as 0). -/
def strcmp : List Char → List Char → Int
  | [], [] => 0
  | [], b :: _ => - (b.toNat : Int)
  | a :: _, [] => (a.toNat : Int)
  | a :: as, b :: bs => if a = b then strcmp as bs else (a.toNat : Int) - (b.toNat : Int)

/-- The C string a `const char *` into `bytes` designates: everything before the
first NUL byte. -/
def cstr (bytes : List Char) : List Char :=
  bytes.takeWhile (fun c => c != Char.ofNat 0)

/-! ## Enumerations of `kern_wred.hpp` -/

/-- `FB_DETECT`: autodetect based on the installed GPU. -/
def FB_DETECT : Nat := 0
/-- `FB_RESET`: enforce -v like usual patch. -/
def FB_RESET : Nat := 1
/-- `FB_COPY`: enforce screen copy. -/
def FB_COPY : Nat := 2
/-- `FB_ZEROFILL`: erase screen content. -/
def FB_ZEROFILL : Nat := 3
/-- `FB_NONE`: do nothing. -/
def FB_NONE : Nat := 4
/-- `FB_TOTAL`: number of framebuffer fix modes. -/
def FB_TOTAL : Nat := 5

/-- `AGDP_SET`: the bit that distinguishes a parsed value from the default. -/
def AGDP_SET : Nat := 0x8000
/-- `AGDP_NONE_SET = AGDP_SET | 0`. -/
def AGDP_NONE_SET : Nat := AGDP_SET ||| 0
/-- `AGDP_DETECT`: detect on firmware vendor and hardware installed. -/
def AGDP_DETECT : Nat := 1
/-- `AGDP_DETECT_SET = AGDP_SET | AGDP_DETECT`. -/
def AGDP_DETECT_SET : Nat := AGDP_SET ||| AGDP_DETECT
/-- `AGDP_VIT9696`: null config string size at strcmp. -/
def AGDP_VIT9696 : Nat := 2
/-- `AGDP_PIKERA`: board-id -> board-ix replace. -/
def AGDP_PIKERA : Nat := 4
/-- `AGDP_CFGMAP`: add board-id with none to ConfigMap. -/
def AGDP_CFGMAP : Nat := 8
/-- `AGDP_PATCHES = AGDP_VIT9696 | AGDP_PIKERA | AGDP_CFGMAP`. -/
def AGDP_PATCHES : Nat := AGDP_VIT9696 ||| AGDP_PIKERA ||| AGDP_CFGMAP

/-- Modelled from the spec: the Lilu header that declares `KernelVersion` is not
among the sources; the enumerators are the Darwin major versions, Yosemite
(10.10, "Background init fix is only necessary on 10.10 and newer") being 14. -/
def KernelVersion.Yosemite : Nat := 14
/-- Modelled from the spec: the Lilu header that declares `KernelVersion` is not
among the sources; Mojave (10.14, "Abort on usage on 10.14 or newer") is Darwin
major version 18. -/
def KernelVersion.Mojave : Nat := 18

/-! ## Tokens of the `agdpmod` override string -/

/-- The token `detect`. -/
def tokDetect : List Char := "detect".toList
/-- The token `ignore`. -/
def tokIgnore : List Char := "ignore".toList
/-- The token `vit9696`. -/
def tokVit9696 : List Char := "vit9696".toList
/-- The token `pikera`. -/
def tokPikera : List Char := "pikera".toList
/-- The token `cfgmap`. -/
def tokCfgmap : List Char := "cfgmap".toList

/-! ## State of `class WRed` -/

/-- The fields of `struct vc_info` that the code reads (the others are only
logged). -/
structure vc_info where
  v_height : Nat := 0
  v_width : Nat := 0
  v_depth : Nat := 0
  v_rowbytes : Nat := 0
  v_baseaddr : Nat := 0

/-- What the code does to a `KernelPatcher::KextInfo`: it is handed to Lilu for
load notification (`onKextLoad`, `onKextLoadForce`) and it can be switched
off. -/
structure KextInfo where
  onKextLoad : Bool := false
  switchedOff : Bool := false
  deriving DecidableEq

/-- The data members of `WRed` (with their in-class initialisers) together with
the two file-static `KextInfo` records. `consoleBuffer` is `none` for the null
pointer and otherwise holds the bytes of the owned heap buffer. -/
structure WRed where
  resetFramebuffer : Nat := FB_DETECT
  consoleVinfo : vc_info := {}
  consoleBuffer : Option (List Nat) := none
  gotConsoleVinfo : Bool := false
  graphicsDisplayPolicyMod : Nat := AGDP_DETECT
  kextIOGraphics : KextInfo := {}
  kextAGDPolicy : KextInfo := {}

/-- `WRed::processGraphicsPolicyStr(const char *agdp)`. -/
def WRed.processGraphicsPolicyStr (self : WRed) (agdp : List Char) : WRed :=
  if (strstr agdp tokDetect).isSome then
    { self with graphicsDisplayPolicyMod := AGDP_DETECT_SET }
  else if (strstr agdp tokIgnore).isSome then
    { self with graphicsDisplayPolicyMod := AGDP_NONE_SET }
  else
    let m0 := AGDP_NONE_SET
    let m1 := if (strstr agdp tokVit9696).isSome then m0 ||| AGDP_VIT9696 else m0
    let m2 := if (strstr agdp tokPikera).isSome then m1 ||| AGDP_PIKERA else m1
    let m3 := if (strstr agdp tokCfgmap).isSome then m2 ||| AGDP_CFGMAP else m2
    { self with graphicsDisplayPolicyMod := m3 }

/-- What `WRed::init` reads from its surroundings: the running kernel version
and the two boot arguments. `gfxrst` is the 32-bit value `PE_parse_boot_argn`
stores into `resetFramebuffer` when the argument is present; `agdpmod` is the
string it places in the 128-byte buffer when the argument is present. -/
structure BootEnv where
  getKernelVersion : Nat
  gfxrst : Option Nat := none
  agdpmod : Option (List Char) := none

/-- `WRed::init()`. The registration of the two callbacks and `rad.init()` do
not touch the modelled members and are left out; `onKextLoadForce` and
`onKextLoad` of a `KextInfo` set its `onKextLoad` flag. -/
def WRed.init (self : WRed) (boot : BootEnv) : WRed :=
  let s1 : WRed :=
    if boot.getKernelVersion ≥ KernelVersion.Yosemite then
      let s : WRed :=
        match boot.gfxrst with
        | some v => { self with resetFramebuffer := v }
        | none => self
      if s.resetFramebuffer ≥ FB_TOTAL then { s with resetFramebuffer := FB_DETECT } else s
    else
      { self with resetFramebuffer := FB_NONE }
  let s2 : WRed :=
    match boot.agdpmod with
    | some agdp => s1.processGraphicsPolicyStr agdp
    | none => s1
  let s3 : WRed :=
    if s2.resetFramebuffer != FB_NONE then
      { s2 with kextIOGraphics := { s2.kextIOGraphics with onKextLoad := true } }
    else s2
  if s3.graphicsDisplayPolicyMod != AGDP_NONE_SET then
    { s3 with kextAGDPolicy := { s3.kextAGDPolicy with onKextLoad := true } }
  else s3

/-! ## Device information and `processKernel` -/

/-- The dynamic type of a registry property value, as the two `OSDynamicCast`s
of the source distinguish it: an `OSString` with its characters, an `OSData`
with its bytes, or an object of any other class. -/
inductive OSObject where
  | OSString (chars : List Char)
  | OSData (bytes : List Char)
  | other

/-- An `IORegistryEntry`, reduced to what `getProperty("agdpmod")` returns
(`none` for the null pointer). -/
structure IORegistryEntry where
  agdpmod : Option OSObject := none

/-- Modelled from the spec: the Lilu header that declares
`DeviceInfo::FirmwareVendor` is not among the sources; the code only tells
`Apple` ("the device's firmware is from the OS vendor itself") from the
rest. -/
inductive FirmwareVendor where
  | Unknown
  | Apple
  | Parallels
  | VMware
  | VirtualBox
  deriving DecidableEq

/-- The members of Lilu's `DeviceInfo` that the code reads: the `video` entries
of `videoExternal` in enumeration order, `videoBuiltin` (`none` for the null
pointer) and `firmwareVendor`. -/
structure DeviceInfo where
  videoExternal : List IORegistryEntry := []
  videoBuiltin : Option IORegistryEntry := none
  firmwareVendor : FirmwareVendor := FirmwareVendor.Unknown

/-- What `WRed::processKernel` obtains from its surroundings: the result of
`DeviceInfo::create()` (`none` for the null pointer) and the console
information `solveSymbol(KernelID, "_vinfo")` points at (`none` for the null
pointer). -/
structure KernelEnv where
  devInfo : Option DeviceInfo := none
  vinfo : Option vc_info := none

/-- The lambda `getAgpdMod` of `WRed::processKernel`: the updated instance and
the returned flag. -/
def WRed.getAgpdMod (self : WRed) (device : IORegistryEntry) : WRed × Bool :=
  match device.agdpmod with
  | some prop =>
    let agdp : Option (List Char) :=
      match prop with
      | OSObject.OSString chars => some (cstr chars)
      | OSObject.OSData bytes =>
        if bytes.length > 0 then
          if bytes.getD (bytes.length - 1) (Char.ofNat 0) != Char.ofNat 0 then none
          else some (cstr bytes)
        else none
      | OSObject.other => none
    match agdp with
    | some s => (self.processGraphicsPolicyStr s, true)
    | none => (self, false)
  | none => (self, false)

/-- The loop of `WRed::processKernel` over `videoExternal`, which stops at the
first device for which `getAgpdMod` returns true. -/
def WRed.scanExternal (self : WRed) : List IORegistryEntry → WRed
  | [] => self
  | device :: rest =>
    match self.getAgpdMod device with
    | (s, true) => s
    | (s, false) => s.scanExternal rest

/-- The block `if (devInfo) { ... }` of `WRed::processKernel`. The calls into
other classes (`processSwitchOff`, `rad.processKernel`) do not touch the members
of `WRed` and are left out. -/
def WRed.processDeviceInfo (self : WRed) (devInfo : Option DeviceInfo) : WRed :=
  match devInfo with
  | some devInfo =>
    if self.graphicsDisplayPolicyMod == AGDP_DETECT then
      let s := self.scanExternal devInfo.videoExternal
      match devInfo.videoBuiltin with
      | some builtin =>
        if s.graphicsDisplayPolicyMod == AGDP_DETECT then (s.getAgpdMod builtin).1 else s
      | none => s
    else self
  | none => self

/-- `WRed::processKernel(KernelPatcher &patcher)`. -/
def WRed.processKernel (self : WRed) (k : KernelEnv) : WRed :=
  let s1 : WRed := self.processDeviceInfo k.devInfo
  let s2 : WRed :=
    if s1.resetFramebuffer == FB_DETECT then
      { s1 with resetFramebuffer := FB_NONE,
                kextIOGraphics := { s1.kextIOGraphics with switchedOff := true } }
    else s1
  let s3 : WRed :=
    if (s2.graphicsDisplayPolicyMod &&& AGDP_DETECT != 0) ||
        s2.graphicsDisplayPolicyMod == AGDP_NONE_SET then
      { s2 with graphicsDisplayPolicyMod := AGDP_NONE_SET,
                kextAGDPolicy := { s2.kextAGDPolicy with switchedOff := true } }
    else s2
  if s3.resetFramebuffer == FB_COPY || s3.resetFramebuffer == FB_ZEROFILL then
    match k.vinfo with
    | some info => { s3 with consoleVinfo := info, gotConsoleVinfo := true }
    | none => s3
  else s3

/-- The array `compatibleBoards` of `WRed::isGraphicsPolicyModRequired`. -/
def compatibleBoards : List (List Char) :=
  [ "Mac-00BE6ED71E35EB86".toList,
    "Mac-27ADBB7B4CEE8E61".toList,
    "Mac-4B7AC7E43945597E".toList,
    "Mac-77EB7D7DAF985301".toList,
    "Mac-C3EC7CD22292981F".toList,
    "Mac-C9CF552659EA9913".toList,
    "Mac-F221BEC8".toList,
    "Mac-F221DCC8".toList,
    "Mac-F42C88C8".toList,
    "Mac-FC02E91DDD3FA6A4".toList,
    "Mac-2BD1B31983FE1663".toList ]

/-- `WRed::isGraphicsPolicyModRequired(DeviceInfo *info)`; `boardId` is
`BaseDeviceInfo::get().boardIdentifier`. No function of the source calls
it. -/
def isGraphicsPolicyModRequired (info : DeviceInfo) (boardId : List Char) : Bool :=
  if info.videoExternal.length == 0 then false
  else if info.firmwareVendor = FirmwareVendor.Apple then false
  else if compatibleBoards.any (fun board => strcmp board boardId == 0) then false
  else true

/-- A request `WRed::processGraphicsPolicyMods` makes of the kernel patcher, or
the `PANIC` that ends it. -/
inductive PatcherRequest where
  | applyLookupPatch (find replace : List Nat) (count : Nat)
  | routeMultiple (symbol : String)
  | PANIC
  deriving DecidableEq

/-- The five bytes vit9696's patch looks for. -/
def vit9696Find : List Nat := [0xBA, 0x05, 0x00, 0x00, 0x00]
/-- The five bytes vit9696's patch writes. -/
def vit9696Replace : List Nat := [0xBA, 0x00, 0x00, 0x00, 0x00]
/-- The bytes of `"board-id"` with its terminator (`sizeof("board-id")`). -/
def pikeraFind : List Nat := [98, 111, 97, 114, 100, 45, 105, 100, 0]
/-- The bytes of `"board-ix"` with its terminator. -/
def pikeraReplace : List Nat := [98, 111, 97, 114, 100, 45, 105, 120, 0]
/-- The symbol of the policy module's start routine. -/
def agdpStartSymbol : String := "__ZN25AppleGraphicsDevicePolicy5startEP9IOService"

/-- `WRed::processGraphicsPolicyMods`: the requests made of the patcher, in
order; `kernelVersion` is `getKernelVersion()`. -/
def WRed.processGraphicsPolicyMods (self : WRed) (kernelVersion : Nat) : List PatcherRequest :=
  let r1 : List PatcherRequest :=
    if self.graphicsDisplayPolicyMod &&& AGDP_VIT9696 != 0 then
      [PatcherRequest.applyLookupPatch vit9696Find vit9696Replace 1]
    else []
  let r2 : List PatcherRequest :=
    if self.graphicsDisplayPolicyMod &&& AGDP_PIKERA != 0 then
      r1 ++ [PatcherRequest.applyLookupPatch pikeraFind pikeraReplace 1]
    else r1
  if self.graphicsDisplayPolicyMod &&& AGDP_CFGMAP != 0 then
    if kernelVersion ≥ KernelVersion.Mojave then r2 ++ [PatcherRequest.PANIC]
    else r2 ++ [PatcherRequest.routeMultiple agdpStartSymbol]
  else r2

/-! ## The framebuffer-init wrapper -/

/-- The fields of `IOPixelInformation` that the code compares. -/
structure IOPixelInformation where
  bytesPerRow : Nat
  activeWidth : Nat
  activeHeight : Nat
  bitsPerPixel : Nat

/-- The framebuffer object as the wrapper sees it: `getCurrentDisplayMode`
yields the mode and depth when it returns `kIOReturnSuccess`,
`getPixelInformation mode depth` (system aperture) yields the pixel information
when it returns `kIOReturnSuccess`, and `fVramMap` is the virtual address of the
mapped video memory, `none` while the map pointer is null. -/
structure IOFramebuffer where
  getCurrentDisplayMode : Option (Int × Int)
  getPixelInformation : Int → Int → Option IOPixelInformation
  fVramMap : Option Nat

/-- Everything outside the `WRed` instance that the wrapper and the original
`IOFramebuffer::initFB` can read and write: the framebuffer object, the byte
`gIOFBVerboseBoot` that `gIOFBVerboseBootPtr` points at, and kernel memory as a
map from addresses to bytes. The heap buffer `consoleBuffer` is owned by the
instance and is not part of it. -/
structure World where
  fb : IOFramebuffer
  gIOFBVerboseBoot : Nat
  mem : Nat → Nat

/-- The `n` bytes of memory that start at `addr`. -/
def readBytes (mem : Nat → Nat) (addr n : Nat) : List Nat :=
  (List.range n).map (fun i => mem (addr + i))

/-- `lilu_os_memcpy(dst, src, n)` with `src` the bytes of an owned buffer. -/
def lilu_os_memcpy (mem : Nat → Nat) (dst : Nat) (src : List Nat) (n : Nat) : Nat → Nat :=
  fun a => if dst ≤ a ∧ a < dst + n then src.getD (a - dst) 0 else mem a

/-- `memset(dst, c, n)`. -/
def memset (mem : Nat → Nat) (dst c n : Nat) : Nat → Nat :=
  fun a => if dst ≤ a ∧ a < dst + n then c else mem a

/-- The expression `info.v_rowbytes * info.v_height`, a product of two
`unsigned int`. -/
def consoleSize (info : vc_info) : Nat :=
  (info.v_rowbytes * info.v_height) % 2 ^ 32

/-- What the wrapper wrote to the mapped video memory. -/
inductive VramWrite where
  | nothing
  | copy
  | zeroFill
  deriving DecidableEq

/-- The outcome of one call of the wrapper: the instance and the world on
return, and a record of what happened on the way: whether `Buffer::create` was
called and with what result, the world in which the original routine was
entered, the final values of the locals `backCopy` and `zeroFill`, and what was
written to video memory. -/
structure FramebufferInitRun where
  self : WRed
  world : World
  allocation : Option Bool
  entered : World
  backCopy : Bool
  zeroFill : Bool
  wrote : VramWrite

/-- The first block of the wrapper ("Copy back usually happens in a separate
call"): the instance afterwards and the record of the allocation. `alloc` tells
whether `Buffer::create` returns a buffer. -/
def WRed.captureConsole (self : WRed) (alloc : Bool) (mem : Nat → Nat) : WRed × Option Bool :=
  let backCopy := self.gotConsoleVinfo && self.resetFramebuffer == FB_COPY
  let info := self.consoleVinfo
  if backCopy && info.v_baseaddr != 0 then
    let consoleBuffer : Option (List Nat) :=
      if alloc then some (readBytes mem info.v_baseaddr (consoleSize info)) else none
    ({ self with consoleBuffer := consoleBuffer,
                 consoleVinfo := { info with v_baseaddr := 0 } }, some alloc)
  else (self, none)

/-- The block "Now check if the resolution and parameters match": the values of
`backCopy` and `zeroFill` after it. -/
def checkParameters (info : vc_info) (fb : IOFramebuffer) (backCopy zeroFill : Bool) :
    Bool × Bool :=
  if backCopy || zeroFill then
    match fb.getCurrentDisplayMode with
    | some (mode, depth) =>
      match fb.getPixelInformation mode depth with
      | some pixelInfo =>
        if info.v_rowbytes != pixelInfo.bytesPerRow || info.v_width != pixelInfo.activeWidth ||
            info.v_height != pixelInfo.activeHeight || info.v_depth != pixelInfo.bitsPerPixel then
          (false, false)
        else (backCopy, zeroFill)
      | none => (false, false)
    | none => (false, false)
  else (backCopy, zeroFill)

/-- `WRed::wrapFramebufferInit(IOFramebuffer *fb)` on the instance
`callbackWRED`. `alloc` tells whether `Buffer::create` returns a buffer,
`orgFramebufferInit` is the original routine called through, and `w` is the
world on entry (the framebuffer `fb` is `w.fb`). -/
def WRed.wrapFramebufferInit (self : WRed) (alloc : Bool) (orgFramebufferInit : World → World)
    (w : World) : FramebufferInitRun :=
  let backCopy0 := self.gotConsoleVinfo && self.resetFramebuffer == FB_COPY
  let zeroFill0 := self.gotConsoleVinfo && self.resetFramebuffer == FB_ZEROFILL
  let captured := self.captureConsole alloc w.mem
  let self1 := captured.1
  let info := self1.consoleVinfo
  let verboseBoot := w.gIOFBVerboseBoot
  let backCopy1 := backCopy0 && self1.consoleBuffer.isSome && verboseBoot == 0
  let checked := checkParameters info w.fb backCopy1 zeroFill0
  let backCopy := checked.1
  let zeroFill := checked.2
  let w1 : World := if !backCopy then { w with gIOFBVerboseBoot := 1 } else w
  let w2 : World := orgFramebufferInit w1
  let w3 : World := if !backCopy then { w2 with gIOFBVerboseBoot := verboseBoot } else w2
  match w3.fb.fVramMap with
  | some dst =>
    if backCopy then
      { self := self1,
        world := { w3 with mem := lilu_os_memcpy w3.mem dst (self1.consoleBuffer.getD [])
                                    (consoleSize info) },
        allocation := captured.2, entered := w1, backCopy := backCopy, zeroFill := zeroFill,
        wrote := VramWrite.copy }
    else if zeroFill then
      { self := self1,
        world := { w3 with mem := memset w3.mem dst 0 (consoleSize info) },
        allocation := captured.2, entered := w1, backCopy := backCopy, zeroFill := zeroFill,
        wrote := VramWrite.zeroFill }
    else
      { self := self1, world := w3, allocation := captured.2, entered := w1,
        backCopy := backCopy, zeroFill := zeroFill, wrote := VramWrite.nothing }
  | none =>
    { self := self1, world := w3, allocation := captured.2, entered := w1,
      backCopy := backCopy, zeroFill := zeroFill, wrote := VramWrite.nothing }

/-- One invocation of the hooked routine: the allocator outcome, the original
routine and the world at the time of the call. -/
structure Invocation where
  alloc : Bool
  orgFramebufferInit : World → World
  world : World

/-- The successive runs of the wrapper in one session: each invocation starts
from the instance the previous one left. -/
def WRed.session (self : WRed) : List Invocation → List FramebufferInitRun
  | [] => []
  | i :: rest =>
    let r := self.wrapFramebufferInit i.alloc i.orgFramebufferInit i.world
    r :: r.self.session rest

/-- The instance a list of invocations leaves behind. -/
def WRed.after (self : WRed) : List Invocation → WRed
  | [] => self
  | i :: rest => (self.wrapFramebufferInit i.alloc i.orgFramebufferInit i.world).self.after rest

/-- The number of `Buffer::create` calls in a list of runs. -/
def allocationCount (runs : List FramebufferInitRun) : Nat :=
  (runs.filter (fun r => r.allocation.isSome)).length

/-! ## Sample inputs for the wrapper -/

/-- A framebuffer of 2 by 2 pixels, 32 bits deep, 8 bytes per row, whose video
memory is not mapped yet. -/
def sampleFramebuffer : IOFramebuffer :=
  { getCurrentDisplayMode := some (1, 0),
    getPixelInformation := fun _ _ =>
      some { bytesPerRow := 8, activeWidth := 2, activeHeight := 2, bitsPerPixel := 32 },
    fVramMap := none }

/-- A framebuffer that reports a width of 3 pixels. -/
def sampleWideFramebuffer : IOFramebuffer :=
  { getCurrentDisplayMode := some (1, 0),
    getPixelInformation := fun _ _ =>
      some { bytesPerRow := 8, activeWidth := 3, activeHeight := 2, bitsPerPixel := 32 },
    fVramMap := some 5000 }

/-- A world with verbose output off in which the byte at address `a` is
`a % 256`. -/
def sampleWorld : World :=
  { fb := sampleFramebuffer, gIOFBVerboseBoot := 0, mem := fun a => a % 256 }

/-- The same world around the framebuffer of a different width. -/
def sampleWideWorld : World :=
  { fb := sampleWideFramebuffer, gIOFBVerboseBoot := 0, mem := fun a => a % 256 }

/-- An original routine that maps the video memory at address 5000 and fills
memory with the byte 7. -/
def sampleOriginal (w : World) : World :=
  { w with fb := { w.fb with fVramMap := some 5000 }, mem := fun _ => 7 }

/-- An instance in Copy mode with console info loaded: 2 by 2 pixels, 8 bytes
per row, live console buffer at address 1000. -/
def sampleCopyInstance : WRed :=
  { resetFramebuffer := FB_COPY, gotConsoleVinfo := true,
    consoleVinfo :=
      { v_height := 2, v_width := 2, v_depth := 32, v_rowbytes := 8, v_baseaddr := 1000 } }

/-- Two invocations in the sample world: the allocator fails for the first and
would succeed for the second. -/
def sampleInvocations : List Invocation :=
  [ { alloc := false, orgFramebufferInit := sampleOriginal, world := sampleWorld },
    { alloc := true, orgFramebufferInit := sampleOriginal, world := sampleWorld } ]

/-- A boot with `gfxrst=2` (Copy) on Darwin 20. -/
def sampleCopyBoot : BootEnv :=
  { getKernelVersion := 20, gfxrst := some 2 }

/-- A kernel whose `_vinfo` has the geometry of the sample instance and a live
console buffer at address 1000. -/
def sampleKernel : KernelEnv :=
  { vinfo := some { v_height := 2, v_width := 2, v_depth := 32, v_rowbytes := 8,
                    v_baseaddr := 1000 } }

/-- An original routine that maps the video memory at address 5000 and leaves
the verbose flag at 1. -/
def sampleVerboseOriginal (w : World) : World :=
  { w with fb := { w.fb with fVramMap := some 5000 }, gIOFBVerboseBoot := 1 }

/-- An instance in ZeroFill mode with console info loaded: 2 by 2 pixels, 8
bytes per row. -/
def sampleZeroFillInstance : WRed :=
  { resetFramebuffer := FB_ZEROFILL, gotConsoleVinfo := true,
    consoleVinfo :=
      { v_height := 2, v_width := 2, v_depth := 32, v_rowbytes := 8, v_baseaddr := 1000 } }

/-! ## Sample devices -/

/-- An external GPU whose property is the byte blob `vit9696` without a
terminator. -/
def sampleUnterminatedDevice : IORegistryEntry :=
  { agdpmod := some (OSObject.OSData "vit9696".toList) }

/-- An external GPU whose property is the byte blob `pikera` followed by a NUL
byte. -/
def sampleBlobDevice : IORegistryEntry :=
  { agdpmod := some (OSObject.OSData ("pikera".toList ++ [Char.ofNat 0])) }

/-- A GPU whose property is the text string `cfgmap`. -/
def sampleStringDevice : IORegistryEntry :=
  { agdpmod := some (OSObject.OSString "cfgmap".toList) }

/-- A GPU whose property is the text string `detect`. -/
def sampleDetectDevice : IORegistryEntry :=
  { agdpmod := some (OSObject.OSString "detect".toList) }

/-- Three external GPUs (unterminated blob, terminated blob, text string) and a
built-in GPU. -/
def sampleDeviceInfo : DeviceInfo :=
  { videoExternal := [sampleUnterminatedDevice, sampleBlobDevice, sampleStringDevice],
    videoBuiltin := some sampleDetectDevice }

/-! ## Specification-side vocabulary -/

/-- The OR of the variant bits of the named tokens that occur in `agdp` as
substrings. -/
def variantBitsOf (agdp : List Char) : Nat :=
  (if tokVit9696 <:+: agdp then AGDP_VIT9696 else 0) |||
  (if tokPikera <:+: agdp then AGDP_PIKERA else 0) |||
  (if tokCfgmap <:+: agdp then AGDP_CFGMAP else 0)

/-- The display-mode query fails, or the pixel-information query fails, or the
queried geometry differs from the console geometry in row stride, width, height
or bit depth. -/
def geometryMismatch (info : vc_info) (fb : IOFramebuffer) : Prop :=
  match fb.getCurrentDisplayMode with
  | none => True
  | some (mode, depth) =>
    match fb.getPixelInformation mode depth with
    | none => True
    | some pixelInfo =>
      info.v_rowbytes ≠ pixelInfo.bytesPerRow ∨ info.v_width ≠ pixelInfo.activeWidth ∨
        info.v_height ≠ pixelInfo.activeHeight ∨ info.v_depth ≠ pixelInfo.bitsPerPixel

/-- An override string asks for patches: it contains neither `detect` nor
`ignore` and it contains at least one named variant token. -/
def requestsPatches (agdp : List Char) : Prop :=
  ¬ tokDetect <:+: agdp ∧ ¬ tokIgnore <:+: agdp ∧
    (tokVit9696 <:+: agdp ∨ tokPikera <:+: agdp ∨ tokCfgmap <:+: agdp)

/-- The override string a device property value is read as, when
`getAgpdMod` accepts it. -/
def propertyString : OSObject → Option (List Char)
  | OSObject.OSString chars => some (cstr chars)
  | OSObject.OSData bytes =>
    if bytes ≠ [] ∧ bytes.getLast? = some (Char.ofNat 0) then some (cstr bytes) else none
  | OSObject.other => none

/-- The first override string the devices supply, in list order. -/
def firstDeviceOverride : List IORegistryEntry → Option (List Char)
  | [] => none
  | device :: rest =>
    match device.agdpmod.bind propertyString with
    | some s => some s
    | none => firstDeviceOverride rest

/-- The override string in effect for a boot: the operator's `agdpmod` boot
argument when there is one, otherwise the first string supplied by a device,
external GPUs first and the built-in GPU last. -/
def effectiveOverride (boot : BootEnv) (k : KernelEnv) : Option (List Char) :=
  match boot.agdpmod with
  | some s => some s
  | none =>
    match k.devInfo with
    | some info => firstDeviceOverride (info.videoExternal ++ info.videoBuiltin.toList)
    | none => none

/-- The bitmask the final normalisation of `processKernel` leaves for a parsed
override string: its variant bits on top of `AGDP_NONE_SET` when it asks for
patches, `AGDP_NONE_SET` otherwise. -/
def resolvedMask (agdp : List Char) : Nat :=
  if tokDetect <:+: agdp then AGDP_NONE_SET
  else if tokIgnore <:+: agdp then AGDP_NONE_SET
  else AGDP_NONE_SET ||| variantBitsOf agdp

/-! ## Lemmas -/

theorem strstr_isSome_iff (h n : List Char) : (strstr h n).isSome ↔ n <:+: h := by
  induction h with
  | nil =>
    cases n <;> simp [strstr]
  | cons c rest ih =>
    unfold strstr
    by_cases hp : n.isPrefixOf (c :: rest) = true
    · simp only [hp, if_true, Option.isSome_some, true_iff]
      exact (List.isPrefixOf_iff_prefix.mp hp).isInfix
    · rw [if_neg hp, Option.isSome_map', ih, List.infix_cons_iff]
      constructor
      · intro h; exact Or.inr h
      · rintro (h | h)
        · exact absurd (List.isPrefixOf_iff_prefix.mpr h) hp
        · exact h

theorem strstr_isSome_eq_false (h n : List Char) (hn : ¬ n <:+: h) :
    (strstr h n).isSome = false := by
  rw [Bool.eq_false_iff]
  intro hs
  exact hn ((strstr_isSome_iff _ _).mp hs)

theorem strcmp_self (a : List Char) : strcmp a a = 0 := by
  induction a with
  | nil => rfl
  | cons c rest ih => simp [strcmp, ih]

/-- The value `processGraphicsPolicyStr` stores depends on the string only. -/
theorem processGraphicsPolicyStr_eq (self : WRed) (agdp : List Char) :
    self.processGraphicsPolicyStr agdp =
      { self with graphicsDisplayPolicyMod :=
          (({} : WRed).processGraphicsPolicyStr agdp).graphicsDisplayPolicyMod } := by
  unfold WRed.processGraphicsPolicyStr
  split
  · rfl
  · split <;> rfl

/-- The three shapes of the value `processGraphicsPolicyStr` stores. -/
theorem processGraphicsPolicyStr_mod (self : WRed) (agdp : List Char) :
    (self.processGraphicsPolicyStr agdp).graphicsDisplayPolicyMod =
      if tokDetect <:+: agdp then AGDP_DETECT_SET
      else if tokIgnore <:+: agdp then AGDP_NONE_SET
      else AGDP_NONE_SET ||| variantBitsOf agdp := by
  have hd : (strstr agdp tokDetect).isSome = decide (tokDetect <:+: agdp) := by
    rw [Bool.eq_iff_iff, strstr_isSome_iff]; simp
  have hi : (strstr agdp tokIgnore).isSome = decide (tokIgnore <:+: agdp) := by
    rw [Bool.eq_iff_iff, strstr_isSome_iff]; simp
  have hv : (strstr agdp tokVit9696).isSome = decide (tokVit9696 <:+: agdp) := by
    rw [Bool.eq_iff_iff, strstr_isSome_iff]; simp
  have hp : (strstr agdp tokPikera).isSome = decide (tokPikera <:+: agdp) := by
    rw [Bool.eq_iff_iff, strstr_isSome_iff]; simp
  have hc : (strstr agdp tokCfgmap).isSome = decide (tokCfgmap <:+: agdp) := by
    rw [Bool.eq_iff_iff, strstr_isSome_iff]; simp
  simp only [WRed.processGraphicsPolicyStr, hd, hi, hv, hp, hc, variantBitsOf]
  by_cases d : tokDetect <:+: agdp
  · simp [d]
  · by_cases i : tokIgnore <:+: agdp
    · simp [d, i]
    · by_cases a : tokVit9696 <:+: agdp <;> by_cases b : tokPikera <:+: agdp <;>
        by_cases c : tokCfgmap <:+: agdp <;>
        simp [d, i, a, b, c] <;> decide

/-- The OR of variant bits is one of the eight subsets of `AGDP_PATCHES`, and it
is zero exactly when no named token occurs. -/
theorem variantBitsOf_cases (agdp : List Char) :
    (variantBitsOf agdp = 0 ∧
        ¬ (tokVit9696 <:+: agdp ∨ tokPikera <:+: agdp ∨ tokCfgmap <:+: agdp)) ∨
      ((tokVit9696 <:+: agdp ∨ tokPikera <:+: agdp ∨ tokCfgmap <:+: agdp) ∧
        (variantBitsOf agdp = 2 ∨ variantBitsOf agdp = 4 ∨ variantBitsOf agdp = 6 ∨
          variantBitsOf agdp = 8 ∨ variantBitsOf agdp = 10 ∨ variantBitsOf agdp = 12 ∨
          variantBitsOf agdp = 14)) := by
  unfold variantBitsOf
  by_cases a : tokVit9696 <:+: agdp <;> by_cases b : tokPikera <:+: agdp <;>
    by_cases c : tokCfgmap <:+: agdp <;>
    simp [a, b, c] <;> decide

/-- The value a parse stores is never the unparsed default `AGDP_DETECT`. -/
theorem processGraphicsPolicyStr_ne_default (self : WRed) (agdp : List Char) :
    (self.processGraphicsPolicyStr agdp).graphicsDisplayPolicyMod ≠ AGDP_DETECT := by
  rw [processGraphicsPolicyStr_mod]
  split
  · decide
  · split
    · decide
    · rcases variantBitsOf_cases agdp with ⟨h, _⟩ | ⟨_, h⟩
      · rw [h]; decide
      · rcases h with h | h | h | h | h | h | h <;> rw [h] <;> decide

/-- The lambda `getAgpdMod` accepts exactly the property values that
`propertyString` reads as a string, and parses that string. -/
theorem getAgpdMod_eq (self : WRed) (device : IORegistryEntry) :
    self.getAgpdMod device =
      match device.agdpmod.bind propertyString with
      | some s => (self.processGraphicsPolicyStr s, true)
      | none => (self, false) := by
  unfold WRed.getAgpdMod
  cases hprop : device.agdpmod with
  | none => rfl
  | some prop =>
    cases prop with
    | OSString chars => rfl
    | other => rfl
    | OSData bytes =>
      simp only [Option.some_bind, propertyString]
      by_cases hnil : bytes = []
      · subst hnil; simp
      · have hlen : bytes.length > 0 := List.length_pos.mpr hnil
        have hlast : bytes.getLast? = some (bytes.getD (bytes.length - 1) (Char.ofNat 0)) := by
          rw [List.getLast?_eq_getElem?, List.getD_eq_getElem?_getD]
          have : bytes.length - 1 < bytes.length := by omega
          simp [List.getElem?_eq_getElem this]
        by_cases hz : bytes.getD (bytes.length - 1) (Char.ofNat 0) = Char.ofNat 0
        · simp [hlen, hnil, hlast, hz]
        · simp [hlen, hnil, hlast, hz]

theorem scanExternal_eq (self : WRed) (devices : List IORegistryEntry) :
    self.scanExternal devices =
      match firstDeviceOverride devices with
      | some s => self.processGraphicsPolicyStr s
      | none => self := by
  induction devices with
  | nil => rfl
  | cons device rest ih =>
    unfold WRed.scanExternal firstDeviceOverride
    rw [getAgpdMod_eq]
    cases device.agdpmod.bind propertyString with
    | none => simpa using ih
    | some s => rfl

theorem firstDeviceOverride_append (xs ys : List IORegistryEntry) :
    firstDeviceOverride (xs ++ ys) =
      match firstDeviceOverride xs with
      | some s => some s
      | none => firstDeviceOverride ys := by
  induction xs with
  | nil => rfl
  | cons device rest ih =>
    simp only [List.cons_append, firstDeviceOverride]
    cases device.agdpmod.bind propertyString with
    | none => simpa using ih
    | some s => rfl

/-- With the bitmask still at its default, the device block parses the first
string the devices supply and otherwise changes nothing. -/
theorem processDeviceInfo_default (self : WRed) (info : DeviceInfo)
    (hdefault : self.graphicsDisplayPolicyMod = AGDP_DETECT) :
    self.processDeviceInfo (some info) =
      match firstDeviceOverride (info.videoExternal ++ info.videoBuiltin.toList) with
      | some s => self.processGraphicsPolicyStr s
      | none => self := by
  unfold WRed.processDeviceInfo
  simp only [hdefault, beq_self_eq_true, if_true]
  rw [scanExternal_eq, firstDeviceOverride_append]
  cases hext : firstDeviceOverride info.videoExternal with
  | some s =>
    have hne := processGraphicsPolicyStr_ne_default self s
    cases info.videoBuiltin <;> simp [hne]
  | none =>
    cases hb : info.videoBuiltin with
    | none => simp [firstDeviceOverride]
    | some builtin =>
      simp only [hdefault, beq_self_eq_true, if_true, Option.toList, firstDeviceOverride]
      rw [getAgpdMod_eq]
      cases builtin.agdpmod.bind propertyString <;> rfl

/-- With the bitmask already parsed, the device block changes nothing. -/
theorem processDeviceInfo_parsed (self : WRed) (devInfo : Option DeviceInfo)
    (hparsed : self.graphicsDisplayPolicyMod ≠ AGDP_DETECT) :
    self.processDeviceInfo devInfo = self := by
  unfold WRed.processDeviceInfo
  cases devInfo with
  | none => rfl
  | some info => simp [hparsed]

/-- The bitmask `processKernel` leaves: the normalisation of the bitmask the
device block leaves. -/
theorem processKernel_mod (self : WRed) (k : KernelEnv) :
    (self.processKernel k).graphicsDisplayPolicyMod =
      if ((self.processDeviceInfo k.devInfo).graphicsDisplayPolicyMod &&& AGDP_DETECT != 0 ||
          (self.processDeviceInfo k.devInfo).graphicsDisplayPolicyMod == AGDP_NONE_SET) = true
      then AGDP_NONE_SET
      else (self.processDeviceInfo k.devInfo).graphicsDisplayPolicyMod := by
  unfold WRed.processKernel
  simp only
  split_ifs <;> (try cases k.vinfo) <;> simp_all

/-- Normalising a parsed bitmask gives `resolvedMask`. -/
theorem normalise_parsed (self : WRed) (agdp : List Char) :
    (if ((self.processGraphicsPolicyStr agdp).graphicsDisplayPolicyMod &&& AGDP_DETECT != 0 ||
          (self.processGraphicsPolicyStr agdp).graphicsDisplayPolicyMod == AGDP_NONE_SET) = true
      then AGDP_NONE_SET
      else (self.processGraphicsPolicyStr agdp).graphicsDisplayPolicyMod) = resolvedMask agdp := by
  rw [processGraphicsPolicyStr_mod]
  unfold resolvedMask
  by_cases d : tokDetect <:+: agdp
  · simp only [d, if_true]; decide
  · by_cases i : tokIgnore <:+: agdp
    · simp only [d, i, if_true, if_false]; decide
    · simp only [d, i, if_false]
      rcases variantBitsOf_cases agdp with ⟨h, _⟩ | ⟨_, h⟩
      · rw [h]; decide
      · rcases h with h | h | h | h | h | h | h <;> rw [h] <;> decide

theorem init_mod (self : WRed) (boot : BootEnv) :
    (self.init boot).graphicsDisplayPolicyMod =
      match boot.agdpmod with
      | some s => (self.processGraphicsPolicyStr s).graphicsDisplayPolicyMod
      | none => self.graphicsDisplayPolicyMod := by
  unfold WRed.init
  cases boot.agdpmod with
  | none =>
    cases boot.gfxrst <;> simp only <;> split_ifs <;> rfl
  | some s =>
    simp only
    split_ifs <;> simp only [processGraphicsPolicyStr_mod]

/-- The bitmask at the end of `init` followed by `processKernel`, from the
freshly constructed instance: `resolvedMask` of the override in effect, and
`AGDP_NONE_SET` when there is none. -/
theorem boot_mask (boot : BootEnv) (k : KernelEnv) :
    ((({} : WRed).init boot).processKernel k).graphicsDisplayPolicyMod =
      match effectiveOverride boot k with
      | some s => resolvedMask s
      | none => AGDP_NONE_SET := by
  rw [processKernel_mod]
  have hinit := init_mod ({} : WRed) boot
  generalize ({} : WRed).init boot = s0 at hinit ⊢
  unfold effectiveOverride
  cases hb : boot.agdpmod with
  | some s =>
    rw [hb] at hinit
    simp only at hinit
    have hne : s0.graphicsDisplayPolicyMod ≠ AGDP_DETECT := by
      rw [hinit]; exact processGraphicsPolicyStr_ne_default _ _
    rw [processDeviceInfo_parsed _ _ hne, hinit]
    exact normalise_parsed _ _
  | none =>
    rw [hb] at hinit
    have hm : s0.graphicsDisplayPolicyMod = AGDP_DETECT := hinit
    cases hd : k.devInfo with
    | none =>
      simp only [WRed.processDeviceInfo, hm]; decide
    | some info =>
      simp only
      rw [processDeviceInfo_default _ _ hm]
      cases hf : firstDeviceOverride (info.videoExternal ++ info.videoBuiltin.toList) with
      | none => simp only [hm]; decide
      | some s => exact normalise_parsed _ _

/-- The resolved bitmask is "no patches" exactly when the string does not ask
for patches. -/
theorem resolvedMask_eq_none_iff (agdp : List Char) :
    resolvedMask agdp = AGDP_NONE_SET ↔ ¬ requestsPatches agdp := by
  unfold resolvedMask requestsPatches
  by_cases d : tokDetect <:+: agdp
  · simp [d]
  · by_cases i : tokIgnore <:+: agdp
    · simp [d, i]
    · simp only [d, i, if_false, not_false_eq_true, true_and]
      rcases variantBitsOf_cases agdp with ⟨h, hn⟩ | ⟨hy, h⟩
      · rw [h]; simp only [hn, not_false_eq_true, iff_true]; decide
      · simp only [hy, not_true_eq_false, iff_false]
        rcases h with h | h | h | h | h | h | h <;> rw [h] <;> decide

/-- On an allow-listed board the check answers "not required". -/
theorem isGraphicsPolicyModRequired_allowListed (info : DeviceInfo) (boardId : List Char)
    (hboard : boardId ∈ compatibleBoards) : isGraphicsPolicyModRequired info boardId = false := by
  have hany : compatibleBoards.any (fun board => strcmp board boardId == 0) = true := by
    rw [List.any_eq_true]
    exact ⟨boardId, hboard, by simp [strcmp_self]⟩
  unfold isGraphicsPolicyModRequired
  rw [hany]
  simp

/-- With the bitmask at "no patches" nothing is asked of the patcher. -/
theorem processGraphicsPolicyMods_none (self : WRed) (kernelVersion : Nat)
    (hmask : self.graphicsDisplayPolicyMod = AGDP_NONE_SET) :
    self.processGraphicsPolicyMods kernelVersion = [] := by
  unfold WRed.processGraphicsPolicyMods
  rw [hmask]
  have h1 : (AGDP_NONE_SET &&& AGDP_VIT9696 != 0) = false := by decide
  have h2 : (AGDP_NONE_SET &&& AGDP_PIKERA != 0) = false := by decide
  have h3 : (AGDP_NONE_SET &&& AGDP_CFGMAP != 0) = false := by decide
  simp [h1, h2, h3]

/-- A final bitmask of "no patches" comes with the policy module switched
off. -/
theorem processKernel_switchOff (self : WRed) (k : KernelEnv)
    (hmask : (self.processKernel k).graphicsDisplayPolicyMod = AGDP_NONE_SET) :
    (self.processKernel k).kextAGDPolicy.switchedOff = true := by
  unfold WRed.processKernel at hmask ⊢
  cases hv : k.vinfo <;> simp only [hv] at hmask ⊢ <;> split_ifs at hmask ⊢ <;> simp_all

/-- The device block writes no member other than the bitmask. -/
theorem processDeviceInfo_frame (self : WRed) (devInfo : Option DeviceInfo) :
    self.processDeviceInfo devInfo =
      { self with graphicsDisplayPolicyMod :=
          (self.processDeviceInfo devInfo).graphicsDisplayPolicyMod } := by
  by_cases hdefault : self.graphicsDisplayPolicyMod = AGDP_DETECT
  · cases devInfo with
    | none => rfl
    | some info =>
      rw [processDeviceInfo_default _ _ hdefault]
      cases firstDeviceOverride (info.videoExternal ++ info.videoBuiltin.toList) with
      | none => rfl
      | some s =>
        simp only
        rw [processGraphicsPolicyStr_eq]
  · rw [processDeviceInfo_parsed _ _ hdefault]

/-- The fix mode `processKernel` leaves. -/
theorem processKernel_resetFramebuffer (self : WRed) (k : KernelEnv) :
    (self.processKernel k).resetFramebuffer =
      if self.resetFramebuffer = FB_DETECT then FB_NONE else self.resetFramebuffer := by
  unfold WRed.processKernel
  rw [processDeviceInfo_frame]
  cases hv : k.vinfo <;> simp only [hv] <;> split_ifs <;> simp_all

/-- The fix mode `init` leaves. -/
theorem init_resetFramebuffer (self : WRed) (boot : BootEnv) :
    (self.init boot).resetFramebuffer =
      if boot.getKernelVersion ≥ KernelVersion.Yosemite then
        (if boot.gfxrst.getD self.resetFramebuffer ≥ FB_TOTAL then FB_DETECT
          else boot.gfxrst.getD self.resetFramebuffer)
      else FB_NONE := by
  unfold WRed.init
  cases boot.agdpmod with
  | none =>
    cases boot.gfxrst <;> simp only [Option.getD] <;> split_ifs <;> rfl
  | some s =>
    simp only
    rw [processGraphicsPolicyStr_eq]
    cases boot.gfxrst <;> simp only [Option.getD] <;> split_ifs <;> rfl

/-- A fix mode still at `FB_DETECT` switches the graphics module off. -/
theorem processKernel_switchOffGraphics (self : WRed) (k : KernelEnv)
    (hdetect : self.resetFramebuffer = FB_DETECT) :
    (self.processKernel k).kextIOGraphics.switchedOff = true := by
  unfold WRed.processKernel
  rw [processDeviceInfo_frame]
  cases hv : k.vinfo <;> simp only [hv] <;> split_ifs <;> simp_all

/-! ### The wrapper, step by step -/

theorem wrapFramebufferInit_self (self : WRed) (alloc : Bool) (org : World → World) (w : World) :
    (self.wrapFramebufferInit alloc org w).self = (self.captureConsole alloc w.mem).1 := by
  unfold WRed.wrapFramebufferInit
  simp only
  split
  · split_ifs <;> rfl
  · rfl

theorem wrapFramebufferInit_allocation (self : WRed) (alloc : Bool) (org : World → World)
    (w : World) :
    (self.wrapFramebufferInit alloc org w).allocation = (self.captureConsole alloc w.mem).2 := by
  unfold WRed.wrapFramebufferInit
  simp only
  split
  · split_ifs <;> rfl
  · rfl

theorem wrapFramebufferInit_backCopy (self : WRed) (alloc : Bool) (org : World → World)
    (w : World) :
    (self.wrapFramebufferInit alloc org w).backCopy =
      (checkParameters (self.captureConsole alloc w.mem).1.consoleVinfo w.fb
        (self.gotConsoleVinfo && self.resetFramebuffer == FB_COPY &&
          (self.captureConsole alloc w.mem).1.consoleBuffer.isSome && w.gIOFBVerboseBoot == 0)
        (self.gotConsoleVinfo && self.resetFramebuffer == FB_ZEROFILL)).1 := by
  unfold WRed.wrapFramebufferInit
  simp only
  split
  · split_ifs <;> rfl
  · rfl

theorem wrapFramebufferInit_zeroFill (self : WRed) (alloc : Bool) (org : World → World)
    (w : World) :
    (self.wrapFramebufferInit alloc org w).zeroFill =
      (checkParameters (self.captureConsole alloc w.mem).1.consoleVinfo w.fb
        (self.gotConsoleVinfo && self.resetFramebuffer == FB_COPY &&
          (self.captureConsole alloc w.mem).1.consoleBuffer.isSome && w.gIOFBVerboseBoot == 0)
        (self.gotConsoleVinfo && self.resetFramebuffer == FB_ZEROFILL)).2 := by
  unfold WRed.wrapFramebufferInit
  simp only
  split
  · split_ifs <;> rfl
  · rfl

/-- What was written follows the final `backCopy` and `zeroFill`. -/
theorem wrapFramebufferInit_wrote (self : WRed) (alloc : Bool) (org : World → World)
    (w : World) :
    ((self.wrapFramebufferInit alloc org w).wrote = VramWrite.copy →
        (self.wrapFramebufferInit alloc org w).backCopy = true) ∧
      ((self.wrapFramebufferInit alloc org w).wrote = VramWrite.zeroFill →
        (self.wrapFramebufferInit alloc org w).zeroFill = true) := by
  unfold WRed.wrapFramebufferInit
  simp only
  split
  · split_ifs <;> simp_all
  · simp

/-- The check never turns a flag on. -/
theorem checkParameters_le (info : vc_info) (fb : IOFramebuffer) (backCopy zeroFill : Bool) :
    ((checkParameters info fb backCopy zeroFill).1 = true → backCopy = true) ∧
      ((checkParameters info fb backCopy zeroFill).2 = true → zeroFill = true) := by
  unfold checkParameters
  split_ifs
  · split
    · split
      · split_ifs <;> simp
      · simp
    · simp
  · simp

/-- Under a geometry mismatch the check clears both flags. -/
theorem checkParameters_mismatch (info : vc_info) (fb : IOFramebuffer) (backCopy zeroFill : Bool)
    (hmis : geometryMismatch info fb) :
    checkParameters info fb backCopy zeroFill = (false, false) := by
  unfold geometryMismatch at hmis
  unfold checkParameters
  split_ifs with hany
  · cases hdm : fb.getCurrentDisplayMode with
    | none => rfl
    | some md =>
      obtain ⟨mode, depth⟩ := md
      rw [hdm] at hmis
      simp only at hmis ⊢
      cases hpi : fb.getPixelInformation mode depth with
      | none => rfl
      | some pixelInfo =>
        rw [hpi] at hmis
        simp only at hmis ⊢
        rw [if_pos]
        simpa [bne_iff_ne, or_assoc] using hmis
  · cases backCopy <;> cases zeroFill <;> simp_all

/-- With matching geometry the check leaves both flags as they are. -/
theorem checkParameters_match (info : vc_info) (fb : IOFramebuffer) (backCopy zeroFill : Bool)
    (mode depth : Int) (pixelInfo : IOPixelInformation)
    (hdm : fb.getCurrentDisplayMode = some (mode, depth))
    (hpi : fb.getPixelInformation mode depth = some pixelInfo)
    (hrow : info.v_rowbytes = pixelInfo.bytesPerRow) (hwidth : info.v_width = pixelInfo.activeWidth)
    (hheight : info.v_height = pixelInfo.activeHeight)
    (hdepth : info.v_depth = pixelInfo.bitsPerPixel) :
    checkParameters info fb backCopy zeroFill = (backCopy, zeroFill) := by
  unfold checkParameters
  simp [hdm, hpi, hrow, hwidth, hheight, hdepth]

/-- The two outcomes of the capture block. -/
theorem captureConsole_cases (self : WRed) (alloc : Bool) (mem : Nat → Nat) :
    (self.gotConsoleVinfo = true ∧ self.resetFramebuffer = FB_COPY ∧
        self.consoleVinfo.v_baseaddr ≠ 0 ∧
        self.captureConsole alloc mem =
          ({ self with
              consoleBuffer :=
                if alloc then
                  some (readBytes mem self.consoleVinfo.v_baseaddr (consoleSize self.consoleVinfo))
                else none,
              consoleVinfo := { self.consoleVinfo with v_baseaddr := 0 } }, some alloc)) ∨
      (¬ (self.gotConsoleVinfo = true ∧ self.resetFramebuffer = FB_COPY ∧
          self.consoleVinfo.v_baseaddr ≠ 0) ∧
        self.captureConsole alloc mem = (self, none)) := by
  unfold WRed.captureConsole
  by_cases h : self.gotConsoleVinfo = true ∧ self.resetFramebuffer = FB_COPY ∧
      self.consoleVinfo.v_baseaddr ≠ 0
  · left
    obtain ⟨h1, h2, h3⟩ := h
    refine ⟨h1, h2, h3, ?_⟩
    simp [h1, h2, h3]
  · right
    refine ⟨h, ?_⟩
    have : (self.gotConsoleVinfo && self.resetFramebuffer == FB_COPY &&
        self.consoleVinfo.v_baseaddr != 0) = false := by
      rw [Bool.eq_false_iff]
      intro hc
      apply h
      simpa [bne_iff_ne, and_assoc] using hc
    simp only [this]
    rfl

/-- When the final `backCopy` is set and the framebuffer exposes its video
memory after the call-through, the original was entered in the unchanged world
and the wrapper copied the console buffer to the mapped address. -/
theorem wrapFramebufferInit_copies (self : WRed) (alloc : Bool) (org : World → World)
    (w : World) (dst : Nat)
    (hbackCopy : (self.wrapFramebufferInit alloc org w).backCopy = true)
    (hvram : (org w).fb.fVramMap = some dst) :
    (self.wrapFramebufferInit alloc org w).world.mem =
        lilu_os_memcpy (org w).mem dst ((self.captureConsole alloc w.mem).1.consoleBuffer.getD [])
          (consoleSize (self.captureConsole alloc w.mem).1.consoleVinfo) ∧
      (self.wrapFramebufferInit alloc org w).wrote = VramWrite.copy := by
  rw [wrapFramebufferInit_backCopy] at hbackCopy
  unfold WRed.wrapFramebufferInit
  simp only [hbackCopy, Bool.not_true, Bool.false_eq_true, if_false, hvram, if_true]
  exact ⟨trivial, trivial⟩

/-- When both final flags are clear the wrapper writes nothing to memory. -/
theorem wrapFramebufferInit_cancelled (self : WRed) (alloc : Bool) (org : World → World)
    (w : World)
    (hbackCopy : (self.wrapFramebufferInit alloc org w).backCopy = false)
    (hzeroFill : (self.wrapFramebufferInit alloc org w).zeroFill = false) :
    (self.wrapFramebufferInit alloc org w).wrote = VramWrite.nothing ∧
      (self.wrapFramebufferInit alloc org w).entered = { w with gIOFBVerboseBoot := 1 } ∧
      (self.wrapFramebufferInit alloc org w).world.mem =
        (org { w with gIOFBVerboseBoot := 1 }).mem ∧
      (self.wrapFramebufferInit alloc org w).world.fb =
        (org { w with gIOFBVerboseBoot := 1 }).fb := by
  rw [wrapFramebufferInit_backCopy] at hbackCopy
  rw [wrapFramebufferInit_zeroFill] at hzeroFill
  unfold WRed.wrapFramebufferInit
  simp only [hbackCopy, hzeroFill, Bool.not_false, if_true, Bool.false_eq_true, if_false]
  split <;> exact ⟨rfl, rfl, rfl, rfl⟩

/-- The capture block leaves the console geometry alone. -/
theorem captureConsole_geometry (self : WRed) (alloc : Bool) (mem : Nat → Nat) :
    (self.captureConsole alloc mem).1.consoleVinfo.v_rowbytes = self.consoleVinfo.v_rowbytes ∧
      (self.captureConsole alloc mem).1.consoleVinfo.v_width = self.consoleVinfo.v_width ∧
      (self.captureConsole alloc mem).1.consoleVinfo.v_height = self.consoleVinfo.v_height ∧
      (self.captureConsole alloc mem).1.consoleVinfo.v_depth = self.consoleVinfo.v_depth := by
  rcases captureConsole_cases self alloc mem with ⟨_, _, _, h⟩ | ⟨_, h⟩ <;> rw [h] <;>
    exact ⟨rfl, rfl, rfl, rfl⟩

theorem readBytes_length (mem : Nat → Nat) (addr n : Nat) : (readBytes mem addr n).length = n := by
  simp [readBytes]

theorem readBytes_getD (mem : Nat → Nat) (addr n i : Nat) (hi : i < n) :
    (readBytes mem addr n).getD i 0 = mem (addr + i) := by
  simp [readBytes, List.getD_eq_getElem?_getD, List.getElem?_map, List.getElem?_range hi]

/-! ### Invariants of a session -/

/-- With the live address already cleared, a call leaves the instance as it is
and does not allocate. -/
theorem wrapFramebufferInit_cleared (self : WRed) (alloc : Bool) (org : World → World)
    (w : World) (hcleared : self.consoleVinfo.v_baseaddr = 0) :
    (self.wrapFramebufferInit alloc org w).self = self ∧
      (self.wrapFramebufferInit alloc org w).allocation = none := by
  rw [wrapFramebufferInit_self, wrapFramebufferInit_allocation]
  rcases captureConsole_cases self alloc w.mem with ⟨_, _, h0, _⟩ | ⟨_, h⟩
  · exact absurd hcleared h0
  · rw [h]
    exact ⟨rfl, rfl⟩

/-- A call that allocates clears the live address and stores the outcome of
the allocation. -/
theorem wrapFramebufferInit_allocated (self : WRed) (alloc : Bool) (org : World → World)
    (w : World) (b : Bool) (halloc : (self.wrapFramebufferInit alloc org w).allocation = some b) :
    b = alloc ∧
      self.resetFramebuffer = FB_COPY ∧
      (self.wrapFramebufferInit alloc org w).self.consoleVinfo.v_baseaddr = 0 ∧
      (self.wrapFramebufferInit alloc org w).self.consoleBuffer =
        (if alloc then
          some (readBytes w.mem self.consoleVinfo.v_baseaddr (consoleSize self.consoleVinfo))
        else none) := by
  rw [wrapFramebufferInit_allocation] at halloc
  rw [wrapFramebufferInit_self]
  rcases captureConsole_cases self alloc w.mem with ⟨_, hmode, _, h⟩ | ⟨_, h⟩
  · rw [h] at halloc ⊢
    exact ⟨(Option.some.inj halloc).symm, hmode, rfl, rfl⟩
  · rw [h] at halloc
    exact absurd halloc (by simp)

/-- Without a console buffer on return, the call did not copy. -/
theorem wrapFramebufferInit_noBuffer (self : WRed) (alloc : Bool) (org : World → World)
    (w : World) (hnone : (self.wrapFramebufferInit alloc org w).self.consoleBuffer = none) :
    (self.wrapFramebufferInit alloc org w).backCopy = false ∧
      (self.wrapFramebufferInit alloc org w).wrote ≠ VramWrite.copy := by
  have hb : (self.wrapFramebufferInit alloc org w).backCopy = false := by
    rw [wrapFramebufferInit_self] at hnone
    rw [wrapFramebufferInit_backCopy, Bool.eq_false_iff]
    intro h
    have h1 := (checkParameters_le _ _ _ _).1 h
    simp [hnone] at h1
  refine ⟨hb, ?_⟩
  intro hw
  have := (wrapFramebufferInit_wrote self alloc org w).1 hw
  rw [hb] at this
  exact Bool.false_ne_true this

/-- In Copy mode the final `zeroFill` is clear. -/
theorem wrapFramebufferInit_copyMode (self : WRed) (alloc : Bool) (org : World → World)
    (w : World) (hmode : self.resetFramebuffer = FB_COPY) :
    (self.wrapFramebufferInit alloc org w).zeroFill = false := by
  rw [wrapFramebufferInit_zeroFill, Bool.eq_false_iff]
  intro h
  have h1 := (checkParameters_le _ _ _ _).2 h
  rw [hmode] at h1
  have : (FB_COPY == FB_ZEROFILL) = false := by decide
  simp [this] at h1

/-- Once the live address is cleared, every later run leaves the instance as it
is and does not allocate. -/
theorem session_cleared (self : WRed) (invs : List Invocation)
    (hcleared : self.consoleVinfo.v_baseaddr = 0) :
    ∀ r ∈ self.session invs, r.self = self ∧ r.allocation = none := by
  induction invs with
  | nil => intro r hr; simp [WRed.session] at hr
  | cons i rest ih =>
    intro r hr
    obtain ⟨hs, ha⟩ := wrapFramebufferInit_cleared self i.alloc i.orgFramebufferInit i.world hcleared
    simp only [WRed.session, List.mem_cons] at hr
    rcases hr with hr | hr
    · rw [hr]; exact ⟨hs, ha⟩
    · rw [hs] at hr
      exact ih r hr

theorem allocationCount_cons (r : FramebufferInitRun) (runs : List FramebufferInitRun) :
    allocationCount (r :: runs) =
      (if r.allocation.isSome then 1 else 0) + allocationCount runs := by
  unfold allocationCount
  rw [List.filter_cons]
  split_ifs <;> simp
  omega

theorem allocationCount_eq_zero (runs : List FramebufferInitRun)
    (hnone : ∀ r ∈ runs, r.allocation = none) : allocationCount runs = 0 := by
  unfold allocationCount
  rw [List.length_eq_zero, List.filter_eq_nil_iff]
  intro r hr
  simp [hnone r hr]

theorem session_allocationCount (self : WRed) (invs : List Invocation) :
    allocationCount (self.session invs) ≤ 1 := by
  induction invs generalizing self with
  | nil => simp [WRed.session, allocationCount]
  | cons i rest ih =>
    simp only [WRed.session]
    rw [allocationCount_cons]
    cases ha : (self.wrapFramebufferInit i.alloc i.orgFramebufferInit i.world).allocation with
    | none =>
      simpa using ih _
    | some b =>
      have h0 := (wrapFramebufferInit_allocated self _ _ _ b ha).2.2.1
      have hz := allocationCount_eq_zero _
        (fun r hr => (session_cleared _ rest h0 r hr).2)
      simp [hz]

/-- Every run of a session is a call of the wrapper from some instance, and the
runs after it are the session of the instance it left. -/
theorem session_split (self : WRed) (invs : List Invocation)
    (pre : List FramebufferInitRun) (r : FramebufferInitRun) (post : List FramebufferInitRun)
    (hsplit : self.session invs = pre ++ r :: post) :
    ∃ (s : WRed) (i : Invocation) (rest : List Invocation),
      r = s.wrapFramebufferInit i.alloc i.orgFramebufferInit i.world ∧
        post = r.self.session rest := by
  induction pre generalizing self invs with
  | nil =>
    cases invs with
    | nil => simp [WRed.session] at hsplit
    | cons i rest =>
      simp only [WRed.session, List.nil_append, List.cons.injEq] at hsplit
      obtain ⟨h1, h2⟩ := hsplit
      refine ⟨self, i, rest, h1.symm, ?_⟩
      rw [← h2, h1]
  | cons p pre ih =>
    cases invs with
    | nil => simp [WRed.session] at hsplit
    | cons i rest =>
      simp only [WRed.session, List.cons_append, List.cons.injEq] at hsplit
      exact ih _ rest hsplit.2

/-- A non-null live address comes with loaded console info: true after `init`
and `processKernel` on the freshly constructed instance. -/
theorem boot_liveAddress (boot : BootEnv) (k : KernelEnv) :
    ((({} : WRed).init boot).processKernel k).consoleVinfo.v_baseaddr ≠ 0 →
      ((({} : WRed).init boot).processKernel k).gotConsoleVinfo = true := by
  have hinit : (({} : WRed).init boot).consoleVinfo.v_baseaddr = 0 := by
    unfold WRed.init
    cases boot.agdpmod with
    | none => cases boot.gfxrst <;> simp only <;> split_ifs <;> rfl
    | some s =>
      simp only
      rw [processGraphicsPolicyStr_eq]
      cases boot.gfxrst <;> simp only <;> split_ifs <;> rfl
  generalize ({} : WRed).init boot = s0 at hinit ⊢
  unfold WRed.processKernel
  rw [processDeviceInfo_frame]
  cases hv : k.vinfo <;> simp only [hv] <;> split_ifs <;> simp_all

/-- The same holds after any number of calls of the wrapper. -/
theorem after_liveAddress (self : WRed) (invs : List Invocation)
    (hinv : self.consoleVinfo.v_baseaddr ≠ 0 → self.gotConsoleVinfo = true) :
    (self.after invs).consoleVinfo.v_baseaddr ≠ 0 → (self.after invs).gotConsoleVinfo = true := by
  induction invs generalizing self with
  | nil => exact hinv
  | cons i rest ih =>
    simp only [WRed.after]
    apply ih
    rw [wrapFramebufferInit_self]
    rcases captureConsole_cases self i.alloc i.world.mem with ⟨hg, _, _, h⟩ | ⟨_, h⟩
    · rw [h]; intro _; exact hg
    · rw [h]; exact hinv

/-! ### The verbose flag around the call-through -/

/-- With the final `backCopy` clear, the original is entered with the verbose
flag at 1 and the wrapper puts the value it read back afterwards. -/
theorem wrapFramebufferInit_flag_restored (self : WRed) (alloc : Bool) (org : World → World)
    (w : World) (hbackCopy : (self.wrapFramebufferInit alloc org w).backCopy = false) :
    (self.wrapFramebufferInit alloc org w).entered = { w with gIOFBVerboseBoot := 1 } ∧
      (self.wrapFramebufferInit alloc org w).world.gIOFBVerboseBoot = w.gIOFBVerboseBoot := by
  rw [wrapFramebufferInit_backCopy] at hbackCopy
  unfold WRed.wrapFramebufferInit
  simp only [hbackCopy, Bool.not_false, if_true, Bool.false_eq_true, if_false]
  split
  · split_ifs <;> exact ⟨rfl, rfl⟩
  · exact ⟨rfl, rfl⟩

/-- With the final `backCopy` set, the flag was 0 on entry, the original is
entered in the unchanged world, and the flag on return is the one the original
left. -/
theorem wrapFramebufferInit_flag_untouched (self : WRed) (alloc : Bool) (org : World → World)
    (w : World) (hbackCopy : (self.wrapFramebufferInit alloc org w).backCopy = true) :
    w.gIOFBVerboseBoot = 0 ∧
      (self.wrapFramebufferInit alloc org w).entered = w ∧
      (self.wrapFramebufferInit alloc org w).world.gIOFBVerboseBoot
        = (org w).gIOFBVerboseBoot := by
  rw [wrapFramebufferInit_backCopy] at hbackCopy
  have hflag : w.gIOFBVerboseBoot = 0 := by
    have h1 := (checkParameters_le _ _ _ _).1 hbackCopy
    simp only [Bool.and_eq_true, beq_iff_eq] at h1
    exact h1.2
  refine ⟨hflag, ?_⟩
  unfold WRed.wrapFramebufferInit
  simp only [hbackCopy, Bool.not_true, Bool.false_eq_true, if_false, if_true]
  split <;> exact ⟨rfl, rfl⟩

/-! ### The device scan -/

theorem firstDeviceOverride_none (devices : List IORegistryEntry)
    (hnone : ∀ p ∈ devices, p.agdpmod.bind propertyString = none) :
    firstDeviceOverride devices = none := by
  induction devices with
  | nil => rfl
  | cons device rest ih =>
    unfold firstDeviceOverride
    rw [hnone device (List.mem_cons_self _ _)]
    exact ih (fun p hp => hnone p (List.mem_cons_of_mem _ hp))

theorem firstDeviceOverride_split (pre : List IORegistryEntry) (d : IORegistryEntry)
    (post : List IORegistryEntry) (s : List Char)
    (hpre : ∀ p ∈ pre, p.agdpmod.bind propertyString = none)
    (hd : d.agdpmod.bind propertyString = some s) :
    firstDeviceOverride (pre ++ d :: post) = some s := by
  rw [firstDeviceOverride_append, firstDeviceOverride_none pre hpre]
  simp only [firstDeviceOverride, hd]

/-- What `processKernel` does after the device block depends on the instance
that block leaves only. -/
theorem processKernel_after_deviceInfo (self s1 : WRed) (k : KernelEnv)
    (hblock : self.processDeviceInfo k.devInfo = s1) :
    self.processKernel k = s1.processKernel { devInfo := none, vinfo := k.vinfo } := by
  unfold WRed.processKernel
  rw [hblock]
  rfl

/-! ## C1 to C3: `processGraphicsPolicyStr` -/

/-- C1: for every override string that contains the substring `detect`, and for
every prior state (in particular every prior bitmask),
`processGraphicsPolicyStr` sets the bitmask to `AGDP_DETECT_SET`, which is
`AGDP_SET | AGDP_DETECT`; no condition is placed on the other tokens. -/
theorem processGraphicsPolicyStr_detect (self : WRed) (agdp : List Char)
    (hdetect : tokDetect <:+: agdp) :
    (self.processGraphicsPolicyStr agdp).graphicsDisplayPolicyMod = AGDP_DETECT_SET ∧
      AGDP_DETECT_SET = AGDP_SET ||| AGDP_DETECT := by
  have h : (strstr agdp tokDetect).isSome = true := (strstr_isSome_iff _ _).mpr hdetect
  simp [WRed.processGraphicsPolicyStr, h, AGDP_DETECT_SET]

/-- Witness for C1: `ignore,vit9696,pikera,cfgmap,detect` on a state whose
bitmask was `AGDP_CFGMAP`. -/
theorem processGraphicsPolicyStr_detect_witness :
    tokDetect <:+: "ignore,vit9696,pikera,cfgmap,detect".toList ∧
      (({ graphicsDisplayPolicyMod := AGDP_CFGMAP } : WRed).processGraphicsPolicyStr
          "ignore,vit9696,pikera,cfgmap,detect".toList).graphicsDisplayPolicyMod
        = AGDP_DETECT_SET :=
  ⟨by decide,
   (processGraphicsPolicyStr_detect { graphicsDisplayPolicyMod := AGDP_CFGMAP }
      "ignore,vit9696,pikera,cfgmap,detect".toList (by decide)).1⟩

/-- C2: for every override string that contains `ignore` and whose only other
recognised tokens are named variants (`vit9696`, `pikera`, `cfgmap`), so that
`detect` does not occur in it, and for every prior state,
`processGraphicsPolicyStr` resolves the bitmask to `AGDP_NONE_SET`, in which no
variant bit and no detect bit is set. -/
theorem processGraphicsPolicyStr_ignore (self : WRed) (agdp : List Char)
    (hignore : tokIgnore <:+: agdp) (hnodetect : ¬ tokDetect <:+: agdp) :
    (self.processGraphicsPolicyStr agdp).graphicsDisplayPolicyMod = AGDP_NONE_SET ∧
      AGDP_NONE_SET &&& (AGDP_PATCHES ||| AGDP_DETECT) = 0 := by
  have h1 : (strstr agdp tokDetect).isSome = false := by
    rw [Bool.eq_false_iff]
    intro h
    exact hnodetect ((strstr_isSome_iff _ _).mp h)
  have h2 : (strstr agdp tokIgnore).isSome = true := (strstr_isSome_iff _ _).mpr hignore
  refine ⟨?_, by decide⟩
  simp [WRed.processGraphicsPolicyStr, h1, h2]

/-- Witness for C2: the string `vit9696 pikera cfgmap ignore`. -/
theorem processGraphicsPolicyStr_ignore_witness :
    (tokIgnore <:+: "vit9696 pikera cfgmap ignore".toList ∧
      tokVit9696 <:+: "vit9696 pikera cfgmap ignore".toList ∧
      tokPikera <:+: "vit9696 pikera cfgmap ignore".toList ∧
      tokCfgmap <:+: "vit9696 pikera cfgmap ignore".toList) ∧
      (({} : WRed).processGraphicsPolicyStr
          "vit9696 pikera cfgmap ignore".toList).graphicsDisplayPolicyMod = AGDP_NONE_SET :=
  ⟨by decide,
   (processGraphicsPolicyStr_ignore {} "vit9696 pikera cfgmap ignore".toList
      (by decide) (by decide)).1⟩

/-- C3: for every override string that contains neither `detect` nor `ignore`,
and for every prior state, the bitmask `processGraphicsPolicyStr` produces is
the resolved marker `AGDP_SET` together with exactly the OR of the variant bits
of the named tokens that occur in the string: its variant part
(`& AGDP_PATCHES`) equals that OR, each variant bit is set if and only if its
token occurs, the detect bit is clear, and with no named token the bitmask is
`AGDP_NONE_SET`. -/
theorem processGraphicsPolicyStr_variants (self : WRed) (agdp : List Char)
    (hnodetect : ¬ tokDetect <:+: agdp) (hnoignore : ¬ tokIgnore <:+: agdp) :
    (self.processGraphicsPolicyStr agdp).graphicsDisplayPolicyMod
        = AGDP_NONE_SET ||| variantBitsOf agdp ∧
      (self.processGraphicsPolicyStr agdp).graphicsDisplayPolicyMod &&& AGDP_PATCHES
        = variantBitsOf agdp ∧
      ((self.processGraphicsPolicyStr agdp).graphicsDisplayPolicyMod &&& AGDP_VIT9696 ≠ 0
        ↔ tokVit9696 <:+: agdp) ∧
      ((self.processGraphicsPolicyStr agdp).graphicsDisplayPolicyMod &&& AGDP_PIKERA ≠ 0
        ↔ tokPikera <:+: agdp) ∧
      ((self.processGraphicsPolicyStr agdp).graphicsDisplayPolicyMod &&& AGDP_CFGMAP ≠ 0
        ↔ tokCfgmap <:+: agdp) ∧
      (self.processGraphicsPolicyStr agdp).graphicsDisplayPolicyMod &&& AGDP_DETECT = 0 ∧
      (¬ tokVit9696 <:+: agdp → ¬ tokPikera <:+: agdp → ¬ tokCfgmap <:+: agdp →
        (self.processGraphicsPolicyStr agdp).graphicsDisplayPolicyMod = AGDP_NONE_SET) := by
  have h1 : (strstr agdp tokDetect).isSome = false := by
    rw [Bool.eq_false_iff]
    intro h
    exact hnodetect ((strstr_isSome_iff _ _).mp h)
  have h2 : (strstr agdp tokIgnore).isSome = false := by
    rw [Bool.eq_false_iff]
    intro h
    exact hnoignore ((strstr_isSome_iff _ _).mp h)
  have hv : (strstr agdp tokVit9696).isSome = decide (tokVit9696 <:+: agdp) := by
    rw [Bool.eq_iff_iff, strstr_isSome_iff]; simp
  have hp : (strstr agdp tokPikera).isSome = decide (tokPikera <:+: agdp) := by
    rw [Bool.eq_iff_iff, strstr_isSome_iff]; simp
  have hc : (strstr agdp tokCfgmap).isSome = decide (tokCfgmap <:+: agdp) := by
    rw [Bool.eq_iff_iff, strstr_isSome_iff]; simp
  simp only [WRed.processGraphicsPolicyStr, h1, h2, hv, hp, hc, variantBitsOf]
  by_cases a : tokVit9696 <:+: agdp <;> by_cases b : tokPikera <:+: agdp <;>
    by_cases c : tokCfgmap <:+: agdp <;>
    simp [a, b, c] <;> decide

/-- Witness for C3: the two named tokens of `pikera,vit9696` give exactly
`AGDP_VIT9696 | AGDP_PIKERA` on top of the resolved marker. -/
theorem processGraphicsPolicyStr_variants_witness :
    (¬ tokDetect <:+: "pikera,vit9696".toList ∧ ¬ tokIgnore <:+: "pikera,vit9696".toList) ∧
      (({} : WRed).processGraphicsPolicyStr "pikera,vit9696".toList).graphicsDisplayPolicyMod
          &&& AGDP_PATCHES = AGDP_VIT9696 ||| AGDP_PIKERA :=
  ⟨by decide,
   (processGraphicsPolicyStr_variants {} "pikera,vit9696".toList
      (by decide) (by decide)).2.1.trans (by decide)⟩

/-! ## C4 to C6 and C9: `init` followed by `processKernel` -/

/-- C4 (counterexample): on the allow-listed board `Mac-F221BEC8` (MacPro5,1),
for which `isGraphicsPolicyModRequired` answers false, the operator override
`vit9696` leaves the bitmask at `AGDP_NONE_SET | AGDP_VIT9696` after `init` and
`processKernel`, which is not `AGDP_NONE_SET`. -/
theorem allowListed_override_keeps_patch :
    "Mac-F221BEC8".toList ∈ compatibleBoards ∧
      isGraphicsPolicyModRequired { videoExternal := [{}] } "Mac-F221BEC8".toList = false ∧
      ((({} : WRed).init { getKernelVersion := 20, agdpmod := some "vit9696".toList }).processKernel
          { devInfo := some { videoExternal := [{}] } }).graphicsDisplayPolicyMod
        = AGDP_NONE_SET ||| AGDP_VIT9696 ∧
      AGDP_NONE_SET ||| AGDP_VIT9696 ≠ AGDP_NONE_SET := by
  refine ⟨by decide, by decide, by decide, by decide⟩

/-- C4 (amended): for every board identifier in the allow-list
`isGraphicsPolicyModRequired` answers false for every device information, and
for every boot environment and device profile the bitmask after `init` followed
by `processKernel` is `AGDP_NONE_SET` provided the override in effect (the
operator's string, otherwise the first string a device supplies) does not ask
for patches, that is, it contains `detect` or `ignore` or no named variant
token, or there is no override at all. -/
theorem allowListed_noPatches (boardId : List Char) (info : DeviceInfo) (boot : BootEnv)
    (k : KernelEnv) (hboard : boardId ∈ compatibleBoards)
    (hbenign : ∀ s, effectiveOverride boot k = some s → ¬ requestsPatches s) :
    isGraphicsPolicyModRequired info boardId = false ∧
      ((({} : WRed).init boot).processKernel k).graphicsDisplayPolicyMod = AGDP_NONE_SET := by
  refine ⟨isGraphicsPolicyModRequired_allowListed info boardId hboard, ?_⟩
  rw [boot_mask]
  cases he : effectiveOverride boot k with
  | none => rfl
  | some s => exact (resolvedMask_eq_none_iff s).mpr (hbenign s he)

/-- Witness for C4 (amended): the allow-listed board `Mac-F221BEC8`, the
operator override `pikera ignore`, and an external GPU whose property says
`vit9696`. -/
theorem allowListed_noPatches_witness :
    isGraphicsPolicyModRequired { videoExternal := [{}] } "Mac-F221BEC8".toList = false ∧
      ((({} : WRed).init { getKernelVersion := 20, agdpmod := some "pikera ignore".toList }).processKernel
          { devInfo := some { videoExternal :=
              [{ agdpmod := some (OSObject.OSString "vit9696".toList) }] } }).graphicsDisplayPolicyMod
        = AGDP_NONE_SET :=
  allowListed_noPatches "Mac-F221BEC8".toList { videoExternal := [{}] }
    { getKernelVersion := 20, agdpmod := some "pikera ignore".toList }
    { devInfo := some { videoExternal :=
        [{ agdpmod := some (OSObject.OSString "vit9696".toList) }] } }
    (by decide)
    (by
      intro s hs
      have h : s = "pikera ignore".toList := by
        simp only [effectiveOverride] at hs
        exact (Option.some.inj hs).symm
      subst h
      unfold requestsPatches
      decide)

/-- C5 (counterexample): on a kernel older than Yosemite (Darwin 13) the
out-of-range override 7 makes `init` resolve `FB_NONE`, not `FB_DETECT`. -/
theorem init_outOfRange_oldKernel :
    FB_TOTAL ≤ 7 ∧
      (({} : WRed).init { getKernelVersion := 13, gfxrst := some 7 }).resetFramebuffer = FB_NONE ∧
      FB_NONE ≠ FB_DETECT := by
  refine ⟨by decide, by decide, by decide⟩

/-- C5 (amended): for every numeric framebuffer-mode override outside the valid
range (at least `FB_TOTAL`), on Yosemite or newer the fix mode `init` resolves
is `FB_DETECT`; on an older kernel `init` does not read the override and
resolves `FB_NONE`; in both cases the resolved mode is a valid enumerator and
not the out-of-range value. -/
theorem init_outOfRange (self : WRed) (boot : BootEnv) (v : Nat)
    (hoverride : boot.gfxrst = some v) (hrange : FB_TOTAL ≤ v) :
    (KernelVersion.Yosemite ≤ boot.getKernelVersion →
        (self.init boot).resetFramebuffer = FB_DETECT) ∧
      (boot.getKernelVersion < KernelVersion.Yosemite →
        (self.init boot).resetFramebuffer = FB_NONE) ∧
      (self.init boot).resetFramebuffer < FB_TOTAL ∧
      (self.init boot).resetFramebuffer ≠ v := by
  rw [init_resetFramebuffer, hoverride]
  simp only [Option.getD, ge_iff_le, hrange, if_true]
  refine ⟨fun h => by simp [h], fun h => by simp [Nat.not_le.mpr h], ?_, ?_⟩
  · split_ifs <;> decide
  · have h5 : 5 ≤ v := hrange
    split_ifs
    · simp only [FB_DETECT]; omega
    · simp only [FB_NONE]; omega

/-- Witness for C5 (amended): the override 4294967295 on Darwin 20. -/
theorem init_outOfRange_witness :
    (({} : WRed).init { getKernelVersion := 20, gfxrst := some 4294967295 }).resetFramebuffer
      = FB_DETECT :=
  (init_outOfRange {} { getKernelVersion := 20, gfxrst := some 4294967295 } 4294967295
    rfl (by decide)).1 (by decide)

/-- C6 (counterexample): with zero external GPUs, for which
`isGraphicsPolicyModRequired` answers false, the operator override `cfgmap` on
Darwin 17 leaves the bitmask at `AGDP_NONE_SET | AGDP_CFGMAP`, the policy module
stays registered and not switched off, and `processGraphicsPolicyMods` routes
the policy module start routine. -/
theorem noExternal_override_installs_hook :
    isGraphicsPolicyModRequired { videoExternal := [] } "Mac-7BA5B2D9E42DDD94".toList = false ∧
      ((({} : WRed).init { getKernelVersion := 17, agdpmod := some "cfgmap".toList }).processKernel
          { devInfo := some { videoExternal := [] } }).graphicsDisplayPolicyMod
        = AGDP_NONE_SET ||| AGDP_CFGMAP ∧
      AGDP_NONE_SET ||| AGDP_CFGMAP ≠ AGDP_NONE_SET ∧
      ((({} : WRed).init { getKernelVersion := 17, agdpmod := some "cfgmap".toList }).processKernel
          { devInfo := some { videoExternal := [] } }).kextAGDPolicy
        = { onKextLoad := true, switchedOff := false } ∧
      ((({} : WRed).init { getKernelVersion := 17, agdpmod := some "cfgmap".toList }).processKernel
          { devInfo := some { videoExternal := [] } }).processGraphicsPolicyMods 17
        = [PatcherRequest.routeMultiple agdpStartSymbol] := by
  refine ⟨by decide, by decide, by decide, by decide, by decide⟩

/-- C6 (amended): for every device profile with zero external GPUs
`isGraphicsPolicyModRequired` answers false, and for every boot environment
whose override in effect (the operator's string, otherwise the string the
built-in GPU supplies) does not ask for patches, the bitmask after `init` and
`processKernel` is `AGDP_NONE_SET`, the policy module is switched off, and
`processGraphicsPolicyMods` asks nothing of the patcher: no route for the start
routine and no byte patch. -/
theorem noExternal_noPolicyHook (info : DeviceInfo) (boardId : List Char) (boot : BootEnv)
    (vinfo : Option vc_info) (kernelVersion : Nat) (hzero : info.videoExternal = [])
    (hbenign : ∀ s,
      effectiveOverride boot { devInfo := some info, vinfo := vinfo } = some s →
        ¬ requestsPatches s) :
    isGraphicsPolicyModRequired info boardId = false ∧
      ((({} : WRed).init boot).processKernel
          { devInfo := some info, vinfo := vinfo }).graphicsDisplayPolicyMod = AGDP_NONE_SET ∧
      ((({} : WRed).init boot).processKernel
          { devInfo := some info, vinfo := vinfo }).kextAGDPolicy.switchedOff = true ∧
      ((({} : WRed).init boot).processKernel
          { devInfo := some info, vinfo := vinfo }).processGraphicsPolicyMods kernelVersion
        = [] := by
  have hmask : ((({} : WRed).init boot).processKernel
      { devInfo := some info, vinfo := vinfo }).graphicsDisplayPolicyMod = AGDP_NONE_SET := by
    rw [boot_mask]
    cases he : effectiveOverride boot { devInfo := some info, vinfo := vinfo } with
    | none => rfl
    | some s => exact (resolvedMask_eq_none_iff s).mpr (hbenign s he)
  refine ⟨?_, hmask, processKernel_switchOff _ _ hmask,
    processGraphicsPolicyMods_none _ _ hmask⟩
  simp [isGraphicsPolicyModRequired, hzero]

/-- Witness for C6 (amended): no external GPU, a built-in GPU without the
property, and the operator override `detect cfgmap`. -/
theorem noExternal_noPolicyHook_witness :
    ((({} : WRed).init { getKernelVersion := 17, agdpmod := some "detect cfgmap".toList }).processKernel
        { devInfo := some { videoExternal := [], videoBuiltin := some {} },
          vinfo := none }).processGraphicsPolicyMods 17 = [] :=
  (noExternal_noPolicyHook { videoExternal := [], videoBuiltin := some {} }
    "Mac-7BA5B2D9E42DDD94".toList
    { getKernelVersion := 17, agdpmod := some "detect cfgmap".toList } none 17 rfl
    (by
      intro s hs
      have h : s = "detect cfgmap".toList := by
        simp only [effectiveOverride] at hs
        exact (Option.some.inj hs).symm
      subst h
      unfold requestsPatches
      decide)).2.2.2

/-- C9: detection fails closed. For every instance and every kernel
environment, after `processKernel` the fix mode is not `FB_DETECT`; a mode that
was `FB_DETECT` on entry becomes `FB_NONE` and the graphics module is switched
off; any other mode is left unchanged; and for every boot environment the mode
after `init` followed by `processKernel` is one of `FB_RESET`, `FB_COPY`,
`FB_ZEROFILL`, `FB_NONE`. -/
theorem processKernel_failsClosed (self : WRed) (boot : BootEnv) (k : KernelEnv) :
    (self.processKernel k).resetFramebuffer ≠ FB_DETECT ∧
      (self.resetFramebuffer = FB_DETECT →
        (self.processKernel k).resetFramebuffer = FB_NONE ∧
          (self.processKernel k).kextIOGraphics.switchedOff = true) ∧
      (self.resetFramebuffer ≠ FB_DETECT →
        (self.processKernel k).resetFramebuffer = self.resetFramebuffer) ∧
      (((self.init boot).processKernel k).resetFramebuffer = FB_RESET ∨
        ((self.init boot).processKernel k).resetFramebuffer = FB_COPY ∨
        ((self.init boot).processKernel k).resetFramebuffer = FB_ZEROFILL ∨
        ((self.init boot).processKernel k).resetFramebuffer = FB_NONE) := by
  refine ⟨?_, ?_, ?_, ?_⟩
  · rw [processKernel_resetFramebuffer]
    split_ifs with h
    · decide
    · exact h
  · intro h
    refine ⟨by rw [processKernel_resetFramebuffer, if_pos h], ?_⟩
    exact processKernel_switchOffGraphics self k h
  · intro h
    rw [processKernel_resetFramebuffer, if_neg h]
  · rw [processKernel_resetFramebuffer, init_resetFramebuffer]
    simp only [FB_DETECT, FB_RESET, FB_COPY, FB_ZEROFILL, FB_NONE, FB_TOTAL]
    split_ifs <;> omega

/-- Witness for C9: the override `gfxrst=2` is kept as `FB_COPY`, and the
default `FB_DETECT` ends as `FB_NONE`. -/
theorem processKernel_failsClosed_witness :
    ((({} : WRed).init { getKernelVersion := 20, gfxrst := some 2 }).processKernel {}).resetFramebuffer
        = FB_COPY ∧
      ((({} : WRed).init { getKernelVersion := 20 }).processKernel {}).resetFramebuffer = FB_NONE :=
  ⟨((processKernel_failsClosed (({} : WRed).init { getKernelVersion := 20, gfxrst := some 2 })
      { getKernelVersion := 20 } {}).2.2.1 (by decide)).trans (by decide),
   ((processKernel_failsClosed (({} : WRed).init { getKernelVersion := 20 })
      { getKernelVersion := 20 } {}).2.1 (by decide)).1⟩

/-! ## C7, C8 and C10: the framebuffer-init wrapper -/

/-- C7: in `wrapFramebufferInit` with mode Copy and console info loaded, if a
snapshot of `rowbytes * height` bytes (the 32-bit product the code computes,
`consoleSize`) was captured from the live console buffer, either by this call
(live address non-null, allocation succeeds) or by an earlier one (live address
already cleared, buffer present), the verbose flag is off, the current pixel
geometry of the framebuffer is identical to the console geometry, and the
framebuffer exposes its mapped video memory after the call-through, then on
return the first `rowbytes * height` bytes at the mapped address equal the
snapshot bytes; for a snapshot taken by this call these are the bytes of the
live console buffer on entry. The size is `rowbytes * height` itself whenever
that product fits 32 bits. -/
theorem wrapFramebufferInit_copy (self : WRed) (alloc : Bool) (org : World → World) (w : World)
    (snap : List Nat) (dst : Nat) (mode depth : Int) (pixelInfo : IOPixelInformation)
    (hgot : self.gotConsoleVinfo = true) (hmode : self.resetFramebuffer = FB_COPY)
    (hsnap :
      (self.consoleVinfo.v_baseaddr ≠ 0 ∧ alloc = true ∧
        snap = readBytes w.mem self.consoleVinfo.v_baseaddr (consoleSize self.consoleVinfo)) ∨
      (self.consoleVinfo.v_baseaddr = 0 ∧ self.consoleBuffer = some snap ∧
        snap.length = consoleSize self.consoleVinfo))
    (hverbose : w.gIOFBVerboseBoot = 0)
    (hdm : w.fb.getCurrentDisplayMode = some (mode, depth))
    (hpi : w.fb.getPixelInformation mode depth = some pixelInfo)
    (hrow : pixelInfo.bytesPerRow = self.consoleVinfo.v_rowbytes)
    (hwidth : pixelInfo.activeWidth = self.consoleVinfo.v_width)
    (hheight : pixelInfo.activeHeight = self.consoleVinfo.v_height)
    (hdepth : pixelInfo.bitsPerPixel = self.consoleVinfo.v_depth)
    (hvram : (org w).fb.fVramMap = some dst) :
    (self.wrapFramebufferInit alloc org w).wrote = VramWrite.copy ∧
      (self.wrapFramebufferInit alloc org w).self.consoleBuffer = some snap ∧
      snap.length = consoleSize self.consoleVinfo ∧
      (∀ i, i < consoleSize self.consoleVinfo →
        (self.wrapFramebufferInit alloc org w).world.mem (dst + i) = snap.getD i 0) ∧
      (self.consoleVinfo.v_baseaddr ≠ 0 → ∀ i, i < consoleSize self.consoleVinfo →
        (self.wrapFramebufferInit alloc org w).world.mem (dst + i)
          = w.mem (self.consoleVinfo.v_baseaddr + i)) ∧
      (self.consoleVinfo.v_rowbytes * self.consoleVinfo.v_height < 2 ^ 32 →
        consoleSize self.consoleVinfo
          = self.consoleVinfo.v_rowbytes * self.consoleVinfo.v_height) := by
  obtain ⟨g1, g2, g3, g4⟩ := captureConsole_geometry self alloc w.mem
  have hsize : consoleSize (self.captureConsole alloc w.mem).1.consoleVinfo
      = consoleSize self.consoleVinfo := by
    unfold consoleSize
    rw [g1, g3]
  have hbuf : (self.captureConsole alloc w.mem).1.consoleBuffer = some snap ∧
      snap.length = consoleSize self.consoleVinfo := by
    rcases captureConsole_cases self alloc w.mem with ⟨_, _, _, h⟩ | ⟨hn, h⟩
    · rcases hsnap with ⟨_, ha, hs⟩ | ⟨h0, _, _⟩
      · rw [h, ha, hs]
        exact ⟨rfl, readBytes_length _ _ _⟩
      · contradiction
    · rcases hsnap with ⟨h0, _, _⟩ | ⟨_, hb, hl⟩
      · exact absurd ⟨hgot, hmode, h0⟩ hn
      · rw [h]
        exact ⟨hb, hl⟩
  have hbackCopy : (self.wrapFramebufferInit alloc org w).backCopy = true := by
    rw [wrapFramebufferInit_backCopy,
      checkParameters_match _ _ _ _ mode depth pixelInfo hdm hpi (g1.trans hrow.symm)
        (g2.trans hwidth.symm) (g3.trans hheight.symm) (g4.trans hdepth.symm)]
    simp [hgot, hmode, hbuf.1, hverbose]
  obtain ⟨hmem, hwrote⟩ := wrapFramebufferInit_copies self alloc org w dst hbackCopy hvram
  have hbytes : ∀ i, i < consoleSize self.consoleVinfo →
      (self.wrapFramebufferInit alloc org w).world.mem (dst + i) = snap.getD i 0 := by
    intro i hi
    rw [hmem, hbuf.1, hsize]
    simp [lilu_os_memcpy, hi]
  refine ⟨hwrote, ?_, hbuf.2, hbytes, ?_, ?_⟩
  · rw [wrapFramebufferInit_self]
    exact hbuf.1
  · intro hbase i hi
    rw [hbytes i hi]
    rcases hsnap with ⟨_, _, hs⟩ | ⟨h0, _, _⟩
    · rw [hs]
      exact readBytes_getD _ _ _ _ hi
    · exact absurd h0 hbase
  · intro hfit
    exact Nat.mod_eq_of_lt hfit

/-- C8: in `wrapFramebufferInit`, for every mode (Copy and ZeroFill in
particular), if the display-mode query or the pixel-information query fails, or
the queried geometry differs from the console geometry in row stride, width,
height or bit depth, then `backCopy` and `zeroFill` are both cancelled, the
wrapper writes nothing to video memory, and memory on return is exactly what
the call-through to the original left, byte for byte. -/
theorem wrapFramebufferInit_mismatch (self : WRed) (alloc : Bool) (org : World → World)
    (w : World) (hmis : geometryMismatch self.consoleVinfo w.fb) :
    (self.wrapFramebufferInit alloc org w).backCopy = false ∧
      (self.wrapFramebufferInit alloc org w).zeroFill = false ∧
      (self.wrapFramebufferInit alloc org w).wrote = VramWrite.nothing ∧
      (∀ a, (self.wrapFramebufferInit alloc org w).world.mem a
        = (org (self.wrapFramebufferInit alloc org w).entered).mem a) := by
  have hmis1 : geometryMismatch (self.captureConsole alloc w.mem).1.consoleVinfo w.fb := by
    rcases captureConsole_cases self alloc w.mem with ⟨_, _, _, h⟩ | ⟨_, h⟩ <;> rw [h] <;>
      exact hmis
  have hb : (self.wrapFramebufferInit alloc org w).backCopy = false := by
    rw [wrapFramebufferInit_backCopy, checkParameters_mismatch _ _ _ _ hmis1]
  have hz : (self.wrapFramebufferInit alloc org w).zeroFill = false := by
    rw [wrapFramebufferInit_zeroFill, checkParameters_mismatch _ _ _ _ hmis1]
  obtain ⟨hwrote, hentered, hmem, _⟩ := wrapFramebufferInit_cancelled self alloc org w hb hz
  refine ⟨hb, hz, hwrote, ?_⟩
  intro a
  rw [hentered, hmem]

/-- Witness for C7: the sample instance captures its 16 bytes at address 1000
and, after the original mapped video memory at 5000 and filled memory with 7,
byte 3 of the destination is byte 3 of the live console buffer. -/
theorem wrapFramebufferInit_copy_witness :
    (sampleCopyInstance.wrapFramebufferInit true sampleOriginal sampleWorld).world.mem (5000 + 3)
      = sampleWorld.mem (1000 + 3) :=
  (wrapFramebufferInit_copy sampleCopyInstance true sampleOriginal sampleWorld
    (readBytes sampleWorld.mem 1000 16) 5000 1 0
    { bytesPerRow := 8, activeWidth := 2, activeHeight := 2, bitsPerPixel := 32 }
    rfl rfl (Or.inl ⟨by decide, rfl, rfl⟩) rfl rfl rfl rfl rfl rfl rfl rfl).2.2.2.2.1
    (by decide) 3 (by decide)

/-- Witness for C8: the framebuffer reports a width of 3 against a console
width of 2, and byte 5000 of memory is the 7 the original left there. -/
theorem wrapFramebufferInit_mismatch_witness :
    (sampleCopyInstance.wrapFramebufferInit true sampleOriginal sampleWideWorld).wrote
        = VramWrite.nothing ∧
      (sampleCopyInstance.wrapFramebufferInit true sampleOriginal sampleWideWorld).world.mem 5000
        = 7 :=
  ⟨(wrapFramebufferInit_mismatch sampleCopyInstance true sampleOriginal sampleWideWorld
      (by simp [geometryMismatch, sampleWideWorld, sampleWideFramebuffer,
        sampleCopyInstance])).2.2.1,
   ((wrapFramebufferInit_mismatch sampleCopyInstance true sampleOriginal sampleWideWorld
      (by simp [geometryMismatch, sampleWideWorld, sampleWideFramebuffer,
        sampleCopyInstance])).2.2.2 5000).trans rfl⟩

/-- C10: across every sequence of `wrapFramebufferInit` invocations, from any
instance, `Buffer::create` is called at most once; a run that allocates clears
the live address and no later run allocates; if that allocation failed the run
itself writes neither a copy nor zeros, and no later run copies (the console
buffer stays null). In a session, that is from the instance `init` and
`processKernel` leave and after any earlier invocations, an invocation in Copy
mode with a non-null live console address does allocate (or fail to) and clears
the address. -/
theorem session_allocatesOnce (self : WRed) (boot : BootEnv) (k : KernelEnv)
    (invs : List Invocation) :
    allocationCount (self.session invs) ≤ 1 ∧
      (∀ pre r post, self.session invs = pre ++ r :: post → r.allocation.isSome = true →
        r.self.consoleVinfo.v_baseaddr = 0 ∧ ∀ q ∈ post, q.allocation = none) ∧
      (∀ pre r post, self.session invs = pre ++ r :: post → r.allocation = some false →
        r.wrote = VramWrite.nothing ∧
          ∀ q ∈ post, q.wrote ≠ VramWrite.copy ∧ q.self.consoleBuffer = none) ∧
      (∀ (pre : List Invocation) (i : Invocation),
        (((({} : WRed).init boot).processKernel k).after pre).resetFramebuffer = FB_COPY →
        (((({} : WRed).init boot).processKernel k).after pre).consoleVinfo.v_baseaddr ≠ 0 →
        ((((({} : WRed).init boot).processKernel k).after pre).wrapFramebufferInit i.alloc
            i.orgFramebufferInit i.world).allocation = some i.alloc ∧
          ((((({} : WRed).init boot).processKernel k).after pre).wrapFramebufferInit i.alloc
            i.orgFramebufferInit i.world).self.consoleVinfo.v_baseaddr = 0) := by
  refine ⟨session_allocationCount self invs, ?_, ?_, ?_⟩
  · intro pre r post hsplit halloc
    obtain ⟨s, i, rest, hr, hpost⟩ := session_split self invs pre r post hsplit
    obtain ⟨b, hb⟩ := Option.isSome_iff_exists.mp halloc
    have h0 : r.self.consoleVinfo.v_baseaddr = 0 := by
      rw [hr] at hb ⊢
      exact (wrapFramebufferInit_allocated s _ _ _ b hb).2.2.1
    refine ⟨h0, ?_⟩
    intro q hq
    rw [hpost] at hq
    exact (session_cleared _ rest h0 q hq).2
  · intro pre r post hsplit hfail
    obtain ⟨s, i, rest, hr, hpost⟩ := session_split self invs pre r post hsplit
    have hfacts : r.self.consoleVinfo.v_baseaddr = 0 ∧ r.self.consoleBuffer = none ∧
        r.wrote = VramWrite.nothing := by
      rw [hr] at hfail ⊢
      obtain ⟨hb, hmode, h0, hbuf⟩ := wrapFramebufferInit_allocated s _ _ _ false hfail
      have hnone : (s.wrapFramebufferInit i.alloc i.orgFramebufferInit i.world).self.consoleBuffer
          = none := by
        rw [hbuf, ← hb]
        rfl
      refine ⟨h0, hnone, ?_⟩
      exact (wrapFramebufferInit_cancelled s _ _ _
        (wrapFramebufferInit_noBuffer s _ _ _ hnone).1
        (wrapFramebufferInit_copyMode s _ _ _ hmode)).1
    obtain ⟨h0, hnone, hwrote⟩ := hfacts
    refine ⟨hwrote, ?_⟩
    intro q hq
    rw [hpost] at hq
    obtain ⟨pre2, post2, hsplit2⟩ := List.append_of_mem hq
    obtain ⟨s2, i2, rest2, hq2, _⟩ := session_split r.self rest pre2 q post2 hsplit2
    have hqself : q.self = r.self := (session_cleared _ rest h0 q hq).1
    have hqnone : q.self.consoleBuffer = none := by rw [hqself]; exact hnone
    refine ⟨?_, hqnone⟩
    rw [hq2] at hqnone ⊢
    exact (wrapFramebufferInit_noBuffer s2 _ _ _ hqnone).2
  · intro pre i hmode hbase
    have hgot := after_liveAddress _ pre (boot_liveAddress boot k) hbase
    rw [wrapFramebufferInit_allocation, wrapFramebufferInit_self]
    rcases captureConsole_cases (((({} : WRed).init boot).processKernel k).after pre)
        i.alloc i.world.mem with ⟨_, _, _, h⟩ | ⟨hn, _⟩
    · rw [h]
      exact ⟨rfl, rfl⟩
    · exact absurd ⟨hgot, hmode, hbase⟩ hn

/-- Witness for C10: in the sample session the allocator is called at most
once; the first run fails to allocate and the second run does not copy; and
after a boot with `gfxrst=2` and console info loaded, the first invocation
allocates. -/
theorem session_allocatesOnce_witness :
    allocationCount (sampleCopyInstance.session sampleInvocations) ≤ 1 ∧
      ((sampleCopyInstance.wrapFramebufferInit false sampleOriginal sampleWorld).self.wrapFramebufferInit
          true sampleOriginal sampleWorld).wrote ≠ VramWrite.copy ∧
      (((({} : WRed).init sampleCopyBoot).processKernel sampleKernel).wrapFramebufferInit
          true sampleOriginal sampleWorld).allocation = some true :=
  ⟨(session_allocatesOnce sampleCopyInstance sampleCopyBoot sampleKernel sampleInvocations).1,
   (((session_allocatesOnce sampleCopyInstance sampleCopyBoot sampleKernel sampleInvocations).2.2.1
      []
      (sampleCopyInstance.wrapFramebufferInit false sampleOriginal sampleWorld)
      [(sampleCopyInstance.wrapFramebufferInit false sampleOriginal sampleWorld).self.wrapFramebufferInit
          true sampleOriginal sampleWorld]
      rfl rfl).2 _ (List.mem_singleton.mpr rfl)).1,
   ((session_allocatesOnce sampleCopyInstance sampleCopyBoot sampleKernel sampleInvocations).2.2.2
      [] { alloc := true, orgFramebufferInit := sampleOriginal, world := sampleWorld }
      (by decide) (by decide)).1⟩

/-! ## C11: the verbose flag -/

/-- C11 (counterexample): with Copy proceeding (sample instance, verbose flag 0
on entry) and an original that leaves the flag at 1, the original is entered
with the flag at 0 and the flag is 1 when the wrapper returns, not the 0 read
on entry; with ZeroFill proceeding the original is entered with the flag at 1.
The two proceeding paths hold the flag at different values during the
call-through. -/
theorem wrapFramebufferInit_copy_flag_not_restored :
    (sampleCopyInstance.wrapFramebufferInit true sampleVerboseOriginal sampleWorld).wrote
        = VramWrite.copy ∧
      sampleWorld.gIOFBVerboseBoot = 0 ∧
      (sampleCopyInstance.wrapFramebufferInit true sampleVerboseOriginal
        sampleWorld).entered.gIOFBVerboseBoot = 0 ∧
      (sampleCopyInstance.wrapFramebufferInit true sampleVerboseOriginal
        sampleWorld).world.gIOFBVerboseBoot = 1 ∧
      (sampleZeroFillInstance.wrapFramebufferInit true sampleVerboseOriginal sampleWorld).wrote
        = VramWrite.zeroFill ∧
      (sampleZeroFillInstance.wrapFramebufferInit true sampleVerboseOriginal
        sampleWorld).entered.gIOFBVerboseBoot = 1 := by
  refine ⟨by decide, by decide, by decide, by decide, by decide, by decide⟩

/-- C11 (amended): for every invocation of `wrapFramebufferInit` and every
behaviour of the original, on every path on which the final `backCopy` is clear
(ZeroFill proceeding, the cancelled path, the modes without console info) the
original is entered with the verbose flag at 1 and the flag after the wrapper
returns equals the value read on entry; when Copy proceeds the flag read on
entry is 0, the wrapper does not write it, the original is entered with the flag
at that 0, and the flag on return is the one the original left, so it equals
the value read on entry whenever the original preserves the flag. -/
theorem wrapFramebufferInit_verbose (self : WRed) (alloc : Bool) (org : World → World)
    (w : World) :
    ((self.wrapFramebufferInit alloc org w).backCopy = false →
        (self.wrapFramebufferInit alloc org w).entered.gIOFBVerboseBoot = 1 ∧
          (self.wrapFramebufferInit alloc org w).world.gIOFBVerboseBoot
            = w.gIOFBVerboseBoot) ∧
      ((self.wrapFramebufferInit alloc org w).backCopy = true →
        w.gIOFBVerboseBoot = 0 ∧
          (self.wrapFramebufferInit alloc org w).entered.gIOFBVerboseBoot = 0 ∧
          (self.wrapFramebufferInit alloc org w).world.gIOFBVerboseBoot
            = (org w).gIOFBVerboseBoot) ∧
      ((∀ w1, (org w1).gIOFBVerboseBoot = w1.gIOFBVerboseBoot) →
        (self.wrapFramebufferInit alloc org w).world.gIOFBVerboseBoot
          = w.gIOFBVerboseBoot) := by
  refine ⟨?_, ?_, ?_⟩
  · intro h
    obtain ⟨he, hw⟩ := wrapFramebufferInit_flag_restored self alloc org w h
    exact ⟨by rw [he], hw⟩
  · intro h
    obtain ⟨h0, he, hw⟩ := wrapFramebufferInit_flag_untouched self alloc org w h
    exact ⟨h0, by rw [he]; exact h0, hw⟩
  · intro hpres
    cases h : (self.wrapFramebufferInit alloc org w).backCopy with
    | false => exact (wrapFramebufferInit_flag_restored self alloc org w h).2
    | true =>
      obtain ⟨_, _, hw⟩ := wrapFramebufferInit_flag_untouched self alloc org w h
      rw [hw, hpres]

/-- Witness for C11 (amended): ZeroFill proceeding with an original that leaves
the flag at 1; the flag is back at 0 on return. -/
theorem wrapFramebufferInit_verbose_witness :
    (sampleZeroFillInstance.wrapFramebufferInit true sampleVerboseOriginal
        sampleWorld).entered.gIOFBVerboseBoot = 1 ∧
      (sampleZeroFillInstance.wrapFramebufferInit true sampleVerboseOriginal
        sampleWorld).world.gIOFBVerboseBoot = sampleWorld.gIOFBVerboseBoot :=
  (wrapFramebufferInit_verbose sampleZeroFillInstance true sampleVerboseOriginal
    sampleWorld).1 (by decide)

/-! ## C12: device override properties -/

/-- C12: in `processKernel` with device information present. When no operator
override was given the bitmask `init` leaves is `AGDP_DETECT`, and from an
instance with that bitmask the devices are inspected in enumeration order,
external GPUs first and the built-in GPU last: if the first device whose
property is accepted (a text string, or a non-empty byte blob ending in a NUL
byte) supplies the string `s`, whatever devices come after it, the device block
leaves exactly the instance `processGraphicsPolicyStr s` leaves and
`processKernel` continues exactly as from that instance; if no device is
accepted the block changes nothing. `getAgpdMod` accepts every text string and
every non-empty NUL-terminated blob, parsing the C string it holds, and rejects
an empty or unterminated blob without changing the instance. When an operator
override was given, the device block changes nothing whatever the devices
are. -/
theorem processKernel_deviceOverride (self : WRed) (info : DeviceInfo) (vinfo : Option vc_info)
    (boot : BootEnv) :
    (boot.agdpmod = none → (({} : WRed).init boot).graphicsDisplayPolicyMod = AGDP_DETECT) ∧
      (self.graphicsDisplayPolicyMod = AGDP_DETECT →
        ∀ pre d post s,
          info.videoExternal ++ info.videoBuiltin.toList = pre ++ d :: post →
          (∀ p ∈ pre, p.agdpmod.bind propertyString = none) →
          d.agdpmod.bind propertyString = some s →
          self.processDeviceInfo (some info) = self.processGraphicsPolicyStr s ∧
            self.processKernel { devInfo := some info, vinfo := vinfo } =
              (self.processGraphicsPolicyStr s).processKernel
                { devInfo := none, vinfo := vinfo }) ∧
      (self.graphicsDisplayPolicyMod = AGDP_DETECT →
        (∀ p ∈ info.videoExternal ++ info.videoBuiltin.toList,
          p.agdpmod.bind propertyString = none) →
        self.processDeviceInfo (some info) = self) ∧
      (∀ chars, self.getAgpdMod { agdpmod := some (OSObject.OSString chars) }
        = (self.processGraphicsPolicyStr (cstr chars), true)) ∧
      (∀ bytes, bytes ≠ [] → bytes.getLast? = some (Char.ofNat 0) →
        self.getAgpdMod { agdpmod := some (OSObject.OSData bytes) }
          = (self.processGraphicsPolicyStr (cstr bytes), true)) ∧
      (∀ bytes, bytes = [] ∨ bytes.getLast? ≠ some (Char.ofNat 0) →
        self.getAgpdMod { agdpmod := some (OSObject.OSData bytes) } = (self, false)) ∧
      (∀ s0, boot.agdpmod = some s0 →
        ∀ devInfo, (self.init boot).processDeviceInfo devInfo = self.init boot) := by
  refine ⟨?_, ?_, ?_, ?_, ?_, ?_, ?_⟩
  · intro hb
    rw [init_mod, hb]
  · intro hdefault pre d post s hsplit hpre hd
    have hblock : self.processDeviceInfo (some info) = self.processGraphicsPolicyStr s := by
      rw [processDeviceInfo_default _ _ hdefault, hsplit,
        firstDeviceOverride_split pre d post s hpre hd]
    exact ⟨hblock, processKernel_after_deviceInfo self _
      { devInfo := some info, vinfo := vinfo } hblock⟩
  · intro hdefault hnone
    rw [processDeviceInfo_default _ _ hdefault, firstDeviceOverride_none _ hnone]
  · intro chars
    rw [getAgpdMod_eq]
    rfl
  · intro bytes hne hlast
    rw [getAgpdMod_eq]
    simp [propertyString, hne, hlast]
  · intro bytes hbad
    rw [getAgpdMod_eq]
    have hprop : propertyString (OSObject.OSData bytes) = none := by
      simp only [propertyString]
      rw [if_neg]
      rintro ⟨hne, hlast⟩
      rcases hbad with h | h
      · exact hne h
      · exact h hlast
    simp [hprop]
  · intro s0 hb devInfo
    apply processDeviceInfo_parsed
    rw [init_mod, hb]
    exact processGraphicsPolicyStr_ne_default _ _

/-- Witness for C12: the first external GPU carries an unterminated blob and is
passed over, the second carries `pikera` with its terminator and decides; the
text string of the third and the `detect` of the built-in GPU change
nothing. -/
theorem processKernel_deviceOverride_witness :
    ({} : WRed).processDeviceInfo (some sampleDeviceInfo)
        = ({} : WRed).processGraphicsPolicyStr "pikera".toList ∧
      ({} : WRed).processKernel { devInfo := some sampleDeviceInfo, vinfo := none }
        = (({} : WRed).processGraphicsPolicyStr "pikera".toList).processKernel
            { devInfo := none, vinfo := none } :=
  (processKernel_deviceOverride {} sampleDeviceInfo none { getKernelVersion := 20 }).2.1 rfl
    [sampleUnterminatedDevice] sampleBlobDevice [sampleStringDevice, sampleDetectDevice]
    "pikera".toList rfl
    (by
      intro p hp
      rw [List.mem_singleton] at hp
      subst hp
      decide)
    (by decide)

end WhateverRed
